import Mathlib

/-!
Camera and view management of the 3D scene viewer.

Shallow embedding of `ViewManager.cpp` (pointer, scroll and keyboard handling, frame
timing) together with the parts of the camera interface it calls, of the projection
handling of `MainCode.cpp`, and of the texture registry and material lookup of
`SceneManager.cpp`.

Conventions of the embedding:

* `float` / `double` values are exact rationals (`ℚ`): no rounding, no NaN, no infinities.
* The file-scope variables of `ViewManager.cpp` and the members of `ViewManager` are the
  fields of `ViewState`; every handler is a function from state to state.
* `Camera` member functions live in `camera.h`, which is not among the sources. The
  handlers are embedded over an arbitrary implementation of them (`CameraApi`); where a
  property depends on what the camera does, the camera is modelled from the specification.
* Console output (`std::cout`) is not part of the state and is left out.
* Trigonometry has no exact rational form: where a perspective matrix is built, the map
  from an angle in degrees to `tan(radians(angle) / 2)` is a parameter (`tanHalf`).
* A `while` loop is a recursion on the number of iterations left; an access outside a
  fixed-size table has no defined result (`none`).
* Texture names are `GLuint` values: natural numbers below 2^32, which wrap around when
  they are converted to `int`.
-/

namespace CS330

/-! ## Vectors and matrices (GLM) -/

/-- Three-component vector, `glm::vec3`. -/
@[ext]
structure Vec3 where
  x : ℚ
  y : ℚ
  z : ℚ
deriving DecidableEq

namespace Vec3

/-- Component-wise sum, `a + b`. -/
def add (a b : Vec3) : Vec3 := ⟨a.x + b.x, a.y + b.y, a.z + b.z⟩

/-- Component-wise difference, `a - b`. -/
def sub (a b : Vec3) : Vec3 := ⟨a.x - b.x, a.y - b.y, a.z - b.z⟩

/-- Product with a scalar, `v * k`. -/
def scale (v : Vec3) (k : ℚ) : Vec3 := ⟨v.x * k, v.y * k, v.z * k⟩

/-- Vector product, `glm::cross`. -/
def cross (a b : Vec3) : Vec3 :=
  ⟨a.y * b.z - b.y * a.z, a.z * b.x - b.z * a.x, a.x * b.y - b.x * a.y⟩

end Vec3

/-- Four by four matrix, `glm::mat4`, indexed column then row. -/
abbrev Mat4 := Fin 4 → Fin 4 → ℚ

/-- Smaller of two values, `glm::min(x, y)`: `(y < x) ? y : x`. -/
def glm_min (x y : ℚ) : ℚ := if y < x then y else x

/-- Larger of two values, `glm::max(x, y)`: `(x < y) ? y : x`. -/
def glm_max (x y : ℚ) : ℚ := if x < y then y else x

/-- Saturation `glm::clamp(x, minVal, maxVal)`: `min(max(x, minVal), maxVal)`. -/
def glm_clamp (x minVal maxVal : ℚ) : ℚ := glm_min (glm_max x minVal) maxVal

/-! ## Camera interface (`camera.h`) -/

/-- Directions accepted by `Camera::ProcessKeyboard`. -/
inductive Camera_Movement where
  | FORWARD
  | BACKWARD
  | LEFT
  | RIGHT
  | UP
  | DOWN
deriving DecidableEq

/-- Modelled from the spec: the data members of the `Camera` class (declared in
`camera.h`, which is not among the sources), as listed in the data model: eye position,
the derived basis `Front`/`Up`/`Right`, the fixed `WorldUp`, the angles in degrees and
the field of view. -/
structure Camera where
  Position : Vec3
  Front : Vec3
  Up : Vec3
  Right : Vec3
  WorldUp : Vec3
  Yaw : ℚ
  Pitch : ℚ
  Zoom : ℚ
deriving DecidableEq

/-- The four `Camera` member functions that `ViewManager.cpp` calls. Their bodies are in
`camera.h`; the view manager is embedded over any implementation of them. -/
structure CameraApi where
  ProcessMouseMovement : Camera → ℚ → ℚ → Camera
  ProcessKeyboard : Camera → Camera_Movement → ℚ → Camera
  GetViewMatrix : Camera → Mat4
  GetProjectionMatrix : Camera → ℚ → Mat4

/-- Constants and numeric primitives of the camera that the specification leaves open:
the pointer sensitivity, the two pitch clamp bounds (degrees), the map from
`(yaw, pitch)` to the viewing direction and vector normalisation (trigonometry and
square roots have no exact rational form). -/
structure CameraParams where
  MouseSensitivity : ℚ
  PitchMin : ℚ
  PitchMax : ℚ
  direction : ℚ → ℚ → Vec3
  normalize : Vec3 → Vec3

/-- Modelled from the spec: the orientation recomputation of the camera (in `camera.h`,
not among the sources). `front` points along the viewing direction given by the angles,
`right = normalize(cross(front, worldUp))`, `up = normalize(cross(right, front))`; all
three are recomputed together. -/
def Camera.updateCameraVectors (P : CameraParams) (c : Camera) : Camera :=
  let front := P.direction c.Yaw c.Pitch
  let right := P.normalize (Vec3.cross front c.WorldUp)
  let up := P.normalize (Vec3.cross right front)
  { c with Front := front, Right := right, Up := up }

/-- Modelled from the spec: `Camera::ProcessMouseMovement` (in `camera.h`, not among the
sources). Both offsets are scaled by the fixed sensitivity, `dx` is added to yaw and `dy`
to pitch, pitch is clamped, and the orientation is recomputed. -/
def Camera.ProcessMouseMovement (P : CameraParams) (c : Camera) (xoffset yoffset : ℚ) :
    Camera :=
  let yaw := c.Yaw + xoffset * P.MouseSensitivity
  let pitch := glm_clamp (c.Pitch + yoffset * P.MouseSensitivity) P.PitchMin P.PitchMax
  Camera.updateCameraVectors P { c with Yaw := yaw, Pitch := pitch }

/-- Modelled from the spec: `Camera::ProcessKeyboard` (in `camera.h`, not among the
sources). The position is displaced along `Front` (forward/back), `Right` (right/left)
or `WorldUp` (up/down), sign-adjusted, scaled by the step handed in. -/
def Camera.ProcessKeyboard (c : Camera) (direction : Camera_Movement) (step : ℚ) : Camera :=
  match direction with
  | .FORWARD => { c with Position := c.Position.add (c.Front.scale step) }
  | .BACKWARD => { c with Position := c.Position.sub (c.Front.scale step) }
  | .LEFT => { c with Position := c.Position.sub (c.Right.scale step) }
  | .RIGHT => { c with Position := c.Position.add (c.Right.scale step) }
  | .UP => { c with Position := c.Position.add (c.WorldUp.scale step) }
  | .DOWN => { c with Position := c.Position.sub (c.WorldUp.scale step) }

/-- The camera interface with pointer and keyboard motion as the specification describes
them; the two matrix getters stay those of `mats`. -/
def specCamera (P : CameraParams) (mats : CameraApi) : CameraApi :=
  { ProcessMouseMovement := Camera.ProcessMouseMovement P
    ProcessKeyboard := Camera.ProcessKeyboard
    GetViewMatrix := mats.GetViewMatrix
    GetProjectionMatrix := mats.GetProjectionMatrix }

/-! ## Shader sink (`ShaderManager.h`) -/

/-- A value uploaded to a shader uniform. -/
inductive UniformValue where
  | mat4 (m : Mat4)
  | vec3 (v : Vec3)

/-- Modelled from the spec: the shader/uniform sink (`ShaderManager.h` is not among the
sources). It holds, per uniform name, the value most recently uploaded. -/
structure ShaderManager where
  uniforms : String → Option UniformValue

/-- Upload of a matrix under `name`. -/
def ShaderManager.setMat4Value (sm : ShaderManager) (name : String) (m : Mat4) :
    ShaderManager :=
  ⟨fun n => if n = name then some (UniformValue.mat4 m) else sm.uniforms n⟩

/-- Upload of a vector under `name`. -/
def ShaderManager.setVec3Value (sm : ShaderManager) (name : String) (v : Vec3) :
    ShaderManager :=
  ⟨fun n => if n = name then some (UniformValue.vec3 v) else sm.uniforms n⟩

/-! ## `ViewManager.cpp` -/

/-- Window width in pixels. -/
def WINDOW_WIDTH : ℚ := 1000

/-- Window height in pixels. -/
def WINDOW_HEIGHT : ℚ := 800

/-- Uniform name of the view matrix. -/
def g_ViewName : String := "view"

/-- Uniform name of the projection matrix. -/
def g_ProjectionName : String := "projection"

/-- Keys polled with `glfwGetKey`. -/
inductive Key where
  | ESCAPE
  | W
  | S
  | A
  | D
  | Q
  | E
  | P
  | O
deriving DecidableEq

/-- Keyboard snapshot: `keys k = true` stands for `glfwGetKey(window, k) == GLFW_PRESS`. -/
abbrev Keys := Key → Bool

/-- File-scope variables of `ViewManager.cpp`, the shader manager the `ViewManager` holds,
and the two pieces of window state its handlers write (the close flag and the cursor
position requested through `glfwSetCursorPos`). A null pointer is `none`. -/
structure ViewState where
  m_pShaderManager : Option ShaderManager
  g_pCamera : Option Camera
  gLastX : ℚ
  gLastY : ℚ
  gFirstMouse : Bool
  gDeltaTime : ℚ
  gLastFrame : ℚ
  gCameraSpeed : ℚ
  windowShouldClose : Bool
  cursorPos : Option (ℚ × ℚ)

/-- The constructor `ViewManager::ViewManager`, run on the initial values of the
file-scope variables. `cam0` is the object `new Camera()` yields; the constructor then
overwrites its position, front, up and zoom. -/
def ViewManager (pShaderManager : Option ShaderManager) (cam0 : Camera) : ViewState :=
  { m_pShaderManager := pShaderManager
    g_pCamera := some { cam0 with
      Position := ⟨1/2, 11/2, 10⟩
      Front := ⟨0, -1/2, -2⟩
      Up := ⟨0, 1, 0⟩
      Zoom := 80 }
    gLastX := WINDOW_WIDTH / 2
    gLastY := WINDOW_HEIGHT / 2
    gFirstMouse := true
    gDeltaTime := 0
    gLastFrame := 0
    gCameraSpeed := 5/2
    windowShouldClose := false
    cursorPos := none }

/-- The pointer set-up at the end of `ViewManager::CreateDisplayWindow` (window creation
succeeded): the cursor is put at the window centre, the last position is set to the
centre and the first-sample flag is raised. -/
def CreateDisplayWindow (s : ViewState) : ViewState :=
  { s with
    cursorPos := some (WINDOW_WIDTH / 2, WINDOW_HEIGHT / 2)
    gLastX := WINDOW_WIDTH / 2
    gLastY := WINDOW_HEIGHT / 2
    gFirstMouse := true }

/-- The handler `ViewManager::Mouse_Position_Callback`. -/
def Mouse_Position_Callback (api : CameraApi) (s : ViewState) (xMousePos yMousePos : ℚ) :
    ViewState :=
  if s.gFirstMouse then
    { s with
      gLastX := xMousePos
      gLastY := yMousePos
      gFirstMouse := false
      cursorPos := some (WINDOW_WIDTH / 2, WINDOW_HEIGHT / 2) }
  else
    let xOffset := xMousePos - s.gLastX
    let yOffset := s.gLastY - yMousePos
    let s1 := { s with gLastX := xMousePos, gLastY := yMousePos }
    match s1.g_pCamera with
    | some c => { s1 with g_pCamera := some (api.ProcessMouseMovement c xOffset yOffset) }
    | none => s1

set_option linter.unusedVariables false in
/-- The handler `ViewManager::Scroll_Callback`. -/
def Scroll_Callback (s : ViewState) (xOffset yOffset : ℚ) : ViewState :=
  let speed := s.gCameraSpeed + yOffset
  { s with gCameraSpeed := glm_clamp speed (1/10) 10 }

/-- One guarded call of `ProcessKeyboardEvents`:
`if (glfwGetKey(m_pWindow, k) == GLFW_PRESS) g_pCamera->ProcessKeyboard(dir, step)`. -/
def keyStep (api : CameraApi) (keys : Keys) (k : Key) (dir : Camera_Movement) (step : ℚ)
    (c : Camera) : Camera :=
  if keys k then api.ProcessKeyboard c dir step else c

/-- The method `ViewManager::ProcessKeyboardEvents`. -/
def ProcessKeyboardEvents (api : CameraApi) (s : ViewState) (keys : Keys) : ViewState :=
  let s1 := if keys Key.ESCAPE then { s with windowShouldClose := true } else s
  match s1.g_pCamera with
  | none => s1
  | some c =>
    let step := s1.gDeltaTime * s1.gCameraSpeed
    let c := keyStep api keys Key.W Camera_Movement.FORWARD step c
    let c := keyStep api keys Key.S Camera_Movement.BACKWARD step c
    let c := keyStep api keys Key.A Camera_Movement.LEFT step c
    let c := keyStep api keys Key.D Camera_Movement.RIGHT step c
    let c := keyStep api keys Key.Q Camera_Movement.UP step c
    let c := keyStep api keys Key.E Camera_Movement.DOWN step c
    { s1 with g_pCamera := some c }

/-- The method `ViewManager::PrepareSceneView`; `currentFrame` is what `glfwGetTime()`
returns in this call. The camera pointer is dereferenced without a check, so a null
camera has no defined result (`none`). -/
def PrepareSceneView (api : CameraApi) (s : ViewState) (keys : Keys) (currentFrame : ℚ) :
    Option ViewState :=
  let s1 := { s with gDeltaTime := currentFrame - s.gLastFrame, gLastFrame := currentFrame }
  let s2 := ProcessKeyboardEvents api s1 keys
  match s2.g_pCamera with
  | none => none
  | some c =>
    let view := api.GetViewMatrix c
    let projection := api.GetProjectionMatrix c (WINDOW_WIDTH / WINDOW_HEIGHT)
    match s2.m_pShaderManager with
    | none => some s2
    | some sm =>
      let sm := sm.setMat4Value g_ViewName view
      let sm := sm.setMat4Value g_ProjectionName projection
      let sm := sm.setVec3Value "viewPosition" c.Position
      some { s2 with m_pShaderManager := some sm }

/-! ## Event sequences and sample values -/

/-- A finite sequence of scroll events `(xOffset, yOffset)`, delivered in order. -/
def scrollRun (s : ViewState) (evs : List (ℚ × ℚ)) : ViewState :=
  evs.foldl (fun st e => Scroll_Callback st e.1 e.2) s

/-- A finite sequence of pointer samples `(x, y)`, delivered in order. -/
def pointerRun (api : CameraApi) (s : ViewState) (samples : List (ℚ × ℚ)) : ViewState :=
  samples.foldl (fun st p => Mouse_Position_Callback api st p.1 p.2) s

/-- Keyboard snapshot with exactly the keys of `held` pressed. -/
def holding (held : List Key) : Keys := fun k => decide (k ∈ held)

/-- What reaches the view manager while the main loop runs: a pointer sample, a scroll
event, or a frame (one `PrepareSceneView` call with the keyboard snapshot and the
time-source reading of that frame). -/
inductive Event where
  | pointer (x y : ℚ)
  | scroll (xOffset yOffset : ℚ)
  | frame (keys : Keys) (currentFrame : ℚ)

/-- Handling of one event. -/
def step (api : CameraApi) (s : ViewState) : Event → Option ViewState
  | Event.pointer x y => some (Mouse_Position_Callback api s x y)
  | Event.scroll x y => some (Scroll_Callback s x y)
  | Event.frame keys t => PrepareSceneView api s keys t

/-- Handling of a finite sequence of events, in order. -/
def run (api : CameraApi) (s : ViewState) : List Event → Option ViewState
  | [] => some s
  | e :: es => (step api s e).bind (fun s1 => run api s1 es)

/-- Number of pointer samples in an event sequence. -/
def pointerCount : List Event → ℕ
  | [] => 0
  | Event.pointer _ _ :: es => pointerCount es + 1
  | _ :: es => pointerCount es

/-- A finite sequence of frames `(keys, reading)`, each one `PrepareSceneView` call. -/
def frameRun (api : CameraApi) (s : ViewState) : List (Keys × ℚ) → Option ViewState
  | [] => some s
  | f :: fs => (PrepareSceneView api s f.1 f.2).bind (fun s1 => frameRun api s1 fs)

/-- The key table of `ProcessKeyboardEvents`: the direction each movement key stands
for (W/S forward/backward, A/D left/right, Q/E up/down); other keys move nothing. -/
def movementKey : Key → Option Camera_Movement
  | Key.W => some Camera_Movement.FORWARD
  | Key.S => some Camera_Movement.BACKWARD
  | Key.A => some Camera_Movement.LEFT
  | Key.D => some Camera_Movement.RIGHT
  | Key.Q => some Camera_Movement.UP
  | Key.E => some Camera_Movement.DOWN
  | _ => none

/-- The signed direction vector of a movement: `Front`, `Right` or `WorldUp`, negated
for backward, left and down. -/
def Camera.moveVector (c : Camera) : Camera_Movement → Vec3
  | Camera_Movement.FORWARD => c.Front
  | Camera_Movement.BACKWARD => c.Front.scale (-1)
  | Camera_Movement.LEFT => c.Right.scale (-1)
  | Camera_Movement.RIGHT => c.Right
  | Camera_Movement.UP => c.WorldUp
  | Camera_Movement.DOWN => c.WorldUp.scale (-1)

/-- Change of the camera position over one `ProcessKeyboardEvents` call: position after
minus position before (`none` without a camera). -/
def positionChange (api : CameraApi) (s : ViewState) (keys : Keys) : Option Vec3 :=
  match s.g_pCamera, (ProcessKeyboardEvents api s keys).g_pCamera with
  | some c, some c1 => some (c1.Position.sub c.Position)
  | _, _ => none

/-- Sample camera constants for concrete evaluations: sensitivity 0.1 and pitch bounds
of 89 degrees either way. The direction map and the normalisation are fixed stand-ins
(the real ones are irrational); no property evaluated with them depends on their value. -/
def sampleParams : CameraParams :=
  { MouseSensitivity := 1/10
    PitchMin := -89
    PitchMax := 89
    direction := fun _ _ => ⟨0, 0, -1⟩
    normalize := fun v => v }

/-- Sample camera interface for concrete evaluations: motion as the specification
describes it, matrix getters returning the zero matrix. -/
def sampleApi : CameraApi :=
  { ProcessMouseMovement := Camera.ProcessMouseMovement sampleParams
    ProcessKeyboard := Camera.ProcessKeyboard
    GetViewMatrix := fun _ _ _ => 0
    GetProjectionMatrix := fun _ _ _ _ => 0 }

/-- Sample value for the object `new Camera()` yields: at the origin, looking down the
negative z axis, world up along y. -/
def sampleCamera : Camera :=
  { Position := ⟨0, 0, 0⟩
    Front := ⟨0, 0, -1⟩
    Up := ⟨0, 1, 0⟩
    Right := ⟨1, 0, 0⟩
    WorldUp := ⟨0, 1, 0⟩
    Yaw := -90
    Pitch := 0
    Zoom := 45 }

/-- State after construction and window creation, with no shader manager attached. -/
def sampleState : ViewState := CreateDisplayWindow (ViewManager none sampleCamera)

/-! ## `MainCode.cpp` -/

/-- Projection `glm::perspective(fovy, aspect, zNear, zFar)` (right-handed, depth -1..1).
The one transcendental quantity it computes, `tan(fovy / 2)`, is handed in as
`tanHalfFovy`; the columns are those GLM fills in. -/
def glm_perspective (tanHalfFovy aspect zNear zFar : ℚ) : Mat4 :=
  ![![1 / (aspect * tanHalfFovy), 0, 0, 0],
    ![0, 1 / tanHalfFovy, 0, 0],
    ![0, 0, -(zFar + zNear) / (zFar - zNear), -1],
    ![0, 0, -(2 * zFar * zNear) / (zFar - zNear), 0]]

/-- Projection `glm::ortho(left, right, bottom, top, zNear, zFar)` (right-handed, depth
-1..1), column by column. -/
def glm_ortho (left right bottom top zNear zFar : ℚ) : Mat4 :=
  ![![2 / (right - left), 0, 0, 0],
    ![0, 2 / (top - bottom), 0, 0],
    ![0, 0, -2 / (zFar - zNear), 0],
    ![-(right + left) / (right - left), -(top + bottom) / (top - bottom),
      -(zFar + zNear) / (zFar - zNear), 1]]

/-- Field of view of `MainCode.cpp`, in degrees. -/
def fov : ℚ := 45

/-- Screen width of `MainCode.cpp`. -/
def SCR_WIDTH : ℚ := 1280

/-- Screen height of `MainCode.cpp`. -/
def SCR_HEIGHT : ℚ := 720

/-- Modelled from the spec: `Camera::GetProjectionMatrix(aspect)` (in `camera.h`, not
among the sources). The camera holds no projection mode, so this is the perspective
branch of the projection selector: field of view = zoom, near 0.1, far 100.
`tanHalf d` stands for `tan(radians(d) / 2)`. -/
def Camera.GetProjectionMatrix (tanHalf : ℚ → ℚ) (c : Camera) (aspect : ℚ) : Mat4 :=
  glm_perspective (tanHalf c.Zoom) aspect (1/10) 100

/-- File-scope state of `MainCode.cpp` while the loop of `main` runs: the `projection`
matrix and the view manager. `g_ShaderManager` is the object the view manager holds in
`m_pShaderManager`, so its uniforms are kept there. -/
structure MainState where
  projection : Mat4
  g_ViewManager : ViewState

/-- The function `processInput` of `MainCode.cpp`; `tanHalf d` stands for
`tan(radians(d) / 2)`. -/
def processInput (tanHalf : ℚ → ℚ) (keys : Keys) (projection : Mat4) : Mat4 :=
  let projection :=
    if keys Key.P then glm_perspective (tanHalf fov) (SCR_WIDTH / SCR_HEIGHT) (1/10) 100
    else projection
  if keys Key.O then glm_ortho (-5) 5 (-5) 5 (1/10) 100 else projection

/-- State in which `main` enters its loop: view manager constructed on the shader manager
and window created, `projection` set to the default perspective. `sm0` is the shader
manager as shader loading and scene preparation leave it. -/
def main_init (tanHalf : ℚ → ℚ) (sm0 : ShaderManager) (cam0 : Camera) : MainState :=
  { g_ViewManager := CreateDisplayWindow (ViewManager (some sm0) cam0)
    projection := glm_perspective (tanHalf fov) (SCR_WIDTH / SCR_HEIGHT) (1/10) 100 }

/-- One pass through the loop of `main` up to the point where `RenderScene` is called:
`processInput`, upload of `projection`, `PrepareSceneView`. A null shader manager or
camera has no defined result (`none`). -/
def main_iteration (api : CameraApi) (tanHalf : ℚ → ℚ) (m : MainState) (keys : Keys)
    (currentFrame : ℚ) : Option MainState :=
  let projection := processInput tanHalf keys m.projection
  match m.g_ViewManager.m_pShaderManager with
  | none => none
  | some sm =>
    let v := { m.g_ViewManager with
      m_pShaderManager := some (sm.setMat4Value "projection" projection) }
    match PrepareSceneView api v keys currentFrame with
    | none => none
    | some v1 => some { projection := projection, g_ViewManager := v1 }

/-- The uniform a state holds under `name` (`none` without a shader manager). -/
def ViewState.uniform (s : ViewState) (name : String) : Option UniformValue :=
  match s.m_pShaderManager with
  | none => none
  | some sm => sm.uniforms name

/-- Sample stand-in for `tan(radians(d) / 2)` in concrete evaluations: a rational
approximation, with 355/113 for pi and the Pade approximant
`x (15 - x^2) / (15 - 6 x^2)` for the tangent. -/
def tanHalfApprox (d : ℚ) : ℚ :=
  let x := d * (355/113) / 180 / 2
  x * (15 - x ^ 2) / (15 - 6 * x ^ 2)

/-- Sample shader manager: no uniform uploaded yet. -/
def sampleShader : ShaderManager := ⟨fun _ => none⟩

/-- Sample camera interface whose projection getter is the specification's. -/
def sampleProjApi : CameraApi :=
  { sampleApi with GetProjectionMatrix := Camera.GetProjectionMatrix tanHalfApprox }

/-! ## `SceneManager.cpp` -/

/-- Entry of the texture table, `TEXTURE_INFO`. The record is declared in
`SceneManager.h`, which is not among the sources; its fields are the two that
`SceneManager.cpp` reads and writes. `ID` is a `GLuint` (its address is handed to
`glGenTextures`): a 32-bit unsigned value, kept as a natural number below 2^32. -/
structure TEXTURE_INFO where
  tag : String
  ID : ℕ
deriving DecidableEq

/-- Conversion of a `GLuint` to `int`, as in `textureID = m_textureIDs[index].ID`: values
below 2^31 are kept, values from 2^31 on wrap to the negative range (4294967295 becomes
-1). -/
def GLuint_to_int (u : ℕ) : ℤ :=
  if u % 4294967296 < 2147483648 then ((u % 4294967296 : ℕ) : ℤ)
  else ((u % 4294967296 : ℕ) : ℤ) - 4294967296

/-- Material record, `OBJECT_MATERIAL`. The record is declared in `SceneManager.h`,
which is not among the sources; its fields are those `SceneManager.cpp` assigns. -/
structure OBJECT_MATERIAL where
  ambientColor : Vec3
  ambientStrength : ℚ
  diffuseColor : Vec3
  specularColor : Vec3
  shininess : ℚ
  tag : String
deriving DecidableEq

/-- Members of `SceneManager` that the texture registry and the material list consist
of: the 16-entry table `m_textureIDs`, the count `m_loadedTextures` and the vector
`m_objectMaterials`. -/
structure SceneState where
  m_textureIDs : Fin 16 → TEXTURE_INFO
  m_loadedTextures : ℕ
  m_objectMaterials : List OBJECT_MATERIAL

/-- The constructor `SceneManager::SceneManager`: every table entry gets the tag `"/0"`
and the ID -1, which the `GLuint` field holds as 4294967295; the count is 0, the material
vector is empty. -/
def SceneManager : SceneState :=
  { m_textureIDs := fun _ => ⟨"/0", 4294967295⟩
    m_loadedTextures := 0
    m_objectMaterials := [] }

/-- Read of `m_textureIDs[index]`; an index outside the 16-entry table has no defined
result (`none`). -/
def SceneState.textureAt (s : SceneState) (index : ℕ) : Option TEXTURE_INFO :=
  if h : index < 16 then some (s.m_textureIDs ⟨index, h⟩) else none

/-- The method `SceneManager::CreateGLTexture`. `image` is what `stbi_load` yields for
the file (`none` for a null pointer, otherwise the number of colour channels) and
`textureID` the name `glGenTextures` hands out, a `GLuint` (stored modulo 2^32). The
result is the new state and the return value; a write outside the 16-entry table has no
defined result (`none`). -/
def CreateGLTexture (s : SceneState) (image : Option ℕ) (textureID : ℕ) (tag : String) :
    Option (SceneState × Bool) :=
  match image with
  | none => some (s, false)
  | some colorChannels =>
    if colorChannels = 3 ∨ colorChannels = 4 then
      if h : s.m_loadedTextures < 16 then
        some ({ s with
          m_textureIDs := Function.update s.m_textureIDs ⟨s.m_loadedTextures, h⟩
            ⟨tag, textureID % 4294967296⟩
          m_loadedTextures := s.m_loadedTextures + 1 }, true)
      else none
    else some (s, false)

/-- The loop of `FindTextureID` from position `index` on, with `fuel` iterations left:
`while ((index < m_loadedTextures) && (bFound == false))`. The `GLuint` ID found is
assigned to the `int` result. Running out of iterations while the loop condition still
holds is `none`, as is a read outside the table. -/
def FindTextureID_loop (s : SceneState) (tag : String) : ℕ → ℕ → Option ℤ
  | 0, index => if index < s.m_loadedTextures then none else some (-1)
  | fuel + 1, index =>
    if index < s.m_loadedTextures then
      match s.textureAt index with
      | none => none
      | some e =>
        if e.tag = tag then some (GLuint_to_int e.ID)
        else FindTextureID_loop s tag fuel (index + 1)
    else some (-1)

/-- The method `SceneManager::FindTextureID`; the loop runs at most `m_loadedTextures`
times. -/
def FindTextureID (s : SceneState) (tag : String) : Option ℤ :=
  FindTextureID_loop s tag s.m_loadedTextures 0

/-- The loop of `FindTextureSlot` from position `index` on, with `fuel` iterations left.
Running out of iterations while the loop condition still holds is `none`, as is a read
outside the table. -/
def FindTextureSlot_loop (s : SceneState) (tag : String) : ℕ → ℕ → Option ℤ
  | 0, index => if index < s.m_loadedTextures then none else some (-1)
  | fuel + 1, index =>
    if index < s.m_loadedTextures then
      match s.textureAt index with
      | none => none
      | some e => if e.tag = tag then some (index : ℤ) else FindTextureSlot_loop s tag fuel (index + 1)
    else some (-1)

/-- The method `SceneManager::FindTextureSlot`; the loop runs at most `m_loadedTextures`
times. -/
def FindTextureSlot (s : SceneState) (tag : String) : Option ℤ :=
  FindTextureSlot_loop s tag s.m_loadedTextures 0

/-- The loop of `FindMaterial` from position `index` on, with `fuel` iterations left;
the result is the output material when the loop ends. Running out of iterations while
the loop condition still holds is `none`. -/
def FindMaterial_loop (mats : List OBJECT_MATERIAL) (tag : String) :
    ℕ → ℕ → OBJECT_MATERIAL → Option OBJECT_MATERIAL
  | 0, index, material => if index < mats.length then none else some material
  | fuel + 1, index, material =>
    match mats[index]? with
    | none => some material
    | some e =>
      if e.tag = tag then
        some { material with
          ambientColor := e.ambientColor
          ambientStrength := e.ambientStrength
          diffuseColor := e.diffuseColor
          specularColor := e.specularColor
          shininess := e.shininess }
      else FindMaterial_loop mats tag fuel (index + 1) material

/-- The method `SceneManager::FindMaterial`: the return value and the output material
(`material` is its value on entry). The loop runs at most `m_objectMaterials.size()`
times. -/
def FindMaterial (s : SceneState) (tag : String) (material : OBJECT_MATERIAL) :
    Option (Bool × OBJECT_MATERIAL) :=
  if s.m_objectMaterials.length = 0 then some (false, material)
  else
    (FindMaterial_loop s.m_objectMaterials tag s.m_objectMaterials.length 0 material).map
      (fun m => (true, m))

/-- The textures `LoadSceneTextures` loads, in order: file name and tag. -/
def sceneTextures : List (String × String) :=
  [("../../Utilities/textures/pavers.jpg", "floor"),
   ("../../Utilities/textures/drywall.jpg", "drywall"),
   ("../../Utilities/textures/beads.png", "cylinder"),
   ("../../Utilities/textures/circular-brushed-gold-texture.jpg", "cylinder_top"),
   ("../../Utilities/textures/wood.jpg", "plank"),
   ("../../Utilities/textures/iphonebox.jpg", "box"),
   ("../../Utilities/textures/iphone.png", "iphone"),
   ("../../Utilities/textures/orange.jpg", "ball"),
   ("../../Utilities/textures/cone.jpg", "cone"),
   ("../../Utilities/textures/mint.jpg", "mint"),
   ("../../Utilities/textures/top.png", "top")]

/-- A finite sequence of `CreateGLTexture` calls, each given as the image `stbi_load`
yields, the name `glGenTextures` hands out and the tag; return values are dropped. -/
def createAll (s : SceneState) : List (Option ℕ × ℕ × String) → Option SceneState
  | [] => some s
  | call :: calls =>
    match CreateGLTexture s call.1 call.2.1 call.2.2 with
    | none => none
    | some r => createAll r.1 calls

/-- The method `SceneManager::LoadSceneTextures`: eleven `CreateGLTexture` calls whose
return values are ignored (`BindGLTextures`, which follows, changes no member). `files`
gives, per file name, the image `stbi_load` yields and the texture name generated. -/
def LoadSceneTextures (files : String → Option ℕ × ℕ) (s : SceneState) : Option SceneState :=
  createAll s (sceneTextures.map (fun ft => ((files ft.1).1, (files ft.1).2, ft.2)))

/-- One material of `DefineObjectMaterials`, from the values assigned to it. -/
def mkMaterial (ambient : ℚ × ℚ × ℚ) (ambientStrength : ℚ) (diffuse specular : ℚ × ℚ × ℚ)
    (shininess : ℚ) (tag : String) : OBJECT_MATERIAL :=
  { ambientColor := ⟨ambient.1, ambient.2.1, ambient.2.2⟩
    ambientStrength := ambientStrength
    diffuseColor := ⟨diffuse.1, diffuse.2.1, diffuse.2.2⟩
    specularColor := ⟨specular.1, specular.2.1, specular.2.2⟩
    shininess := shininess
    tag := tag }

/-- The method `SceneManager::DefineObjectMaterials`: eight materials appended to
`m_objectMaterials`. -/
def DefineObjectMaterials (s : SceneState) : SceneState :=
  { s with m_objectMaterials := s.m_objectMaterials ++
      [mkMaterial (1/5, 1/5, 1/5) (3/10) (1/5, 1/5, 1/5) (1/2, 1/2, 1/2) 22 "metal",
       mkMaterial (1/10, 1/10, 1/10) (1/5) (3/10, 3/10, 3/10) (1/10, 1/10, 1/10) (3/10) "wood",
       mkMaterial (2/5, 2/5, 2/5) (3/10) (3/10, 3/10, 3/10) (3/5, 3/5, 3/5) 85 "glass",
       mkMaterial (1/10, 1/10, 1/10) (1/5) (1/2, 1/2, 1/2) (1/10, 1/10, 1/10) (3/10) "cheese",
       mkMaterial (1/5, 1/5, 1/5) (3/10) (1/2, 1/2, 1/2) (3/10, 3/10, 3/10) (1/2) "bread",
       mkMaterial (1/5, 1/5, 1/5) (1/5) (1/10, 1/10, 1/10) (0, 0, 0) 0 "darkbread",
       mkMaterial (3/5, 3/5, 3/5) (3/5) (3/5, 1/2, 1/10) (0, 0, 0) 0 "backdrop",
       mkMaterial (1/10, 1/10, 1/10) (1/10) (3/10, 1/5, 3/10) (2/5, 1/5, 1/5) (1/2) "grape"] }

/-- The slot value `FindTextureSlot` reports for `tag` on a registry: -1 when none of the
first `m_loadedTextures` entries has the tag, otherwise the smallest index that has it. -/
def IsFirstSlot (s : SceneState) (tag : String) (r : ℤ) : Prop :=
  (r = -1 ∧ ∀ i : Fin 16, i.val < s.m_loadedTextures → (s.m_textureIDs i).tag ≠ tag) ∨
  (∃ i : Fin 16, i.val < s.m_loadedTextures ∧ r = (i.val : ℤ) ∧ (s.m_textureIDs i).tag = tag ∧
    ∀ j : Fin 16, j < i → (s.m_textureIDs j).tag ≠ tag)

/-- The `int` that goes with a slot value: -1 for the slot value -1, otherwise the ID
registered at that index, converted to `int`. -/
def SceneState.idOfSlot (s : SceneState) (slot : ℤ) : Option ℤ :=
  if slot = -1 then some (-1) else (s.textureAt slot.toNat).map (fun e => GLuint_to_int e.ID)

/-- Sample scene state for concrete evaluations: the materials of
`DefineObjectMaterials` and a registry holding two textures, `"floor"` with ID 7 and
`"drywall"` with ID 9. -/
def sampleScene : SceneState :=
  { m_textureIDs := fun i =>
      if i.val = 0 then ⟨"floor", 7⟩ else if i.val = 1 then ⟨"drywall", 9⟩
      else ⟨"/0", 4294967295⟩
    m_loadedTextures := 2
    m_objectMaterials := (DefineObjectMaterials SceneManager).m_objectMaterials }

/-- Whether a `CreateGLTexture` call takes the registering path: its image loaded, with
3 or 4 colour channels. -/
def registers (call : Option ℕ × ℕ × String) : Bool :=
  decide (call.1 = some 3 ∨ call.1 = some 4)

/-- The offsets of a pointer path: for each pair of consecutive samples `(x, y)`,
`(x1, y1)` the pair `(x1 - x, y - y1)`, in order. -/
def pointerOffsets : List (ℚ × ℚ) → List (ℚ × ℚ)
  | p :: q :: rest => (q.1 - p.1, p.2 - q.2) :: pointerOffsets (q :: rest)
  | _ => []

/-- The camera after a sequence of `ProcessMouseMovement` calls with the given offsets,
in order. -/
def applyOffsets (api : CameraApi) (c : Camera) (offsets : List (ℚ × ℚ)) : Camera :=
  offsets.foldl (fun cam d => api.ProcessMouseMovement cam d.1 d.2) c

theorem glm_clamp_lower (x lo hi : ℚ) (h : lo ≤ hi) : lo ≤ glm_clamp x lo hi := by
  unfold glm_clamp glm_min glm_max
  split_ifs <;> linarith

theorem glm_clamp_upper (x lo hi : ℚ) : glm_clamp x lo hi ≤ hi := by
  unfold glm_clamp glm_min glm_max
  split_ifs <;> linarith

theorem scrollRun_snoc (s : ViewState) (evs : List (ℚ × ℚ)) (e : ℚ × ℚ) :
    scrollRun s (evs ++ [e]) = Scroll_Callback (scrollRun s evs) e.1 e.2 := by
  simp [scrollRun, List.foldl_append]

theorem scrollRun_speed_bounds (s : ViewState) (evs : List (ℚ × ℚ))
    (hlo : 1/10 ≤ s.gCameraSpeed) (hhi : s.gCameraSpeed ≤ 10) :
    1/10 ≤ (scrollRun s evs).gCameraSpeed ∧ (scrollRun s evs).gCameraSpeed ≤ 10 := by
  induction evs using List.reverseRecOn with
  | nil => exact ⟨hlo, hhi⟩
  | append_singleton evs e _ =>
    rw [scrollRun_snoc]
    exact ⟨glm_clamp_lower _ _ _ (by norm_num), glm_clamp_upper _ _ _⟩

/-- C1: from a camera speed within [0.1, 10.0], after each scroll event of any finite
sequence of scroll events (every initial segment of the sequence) the camera speed is
within [0.1, 10.0]. -/
theorem Scroll_Callback_speed_invariant (s : ViewState) (evs : List (ℚ × ℚ))
    (hlo : 1/10 ≤ s.gCameraSpeed) (hhi : s.gCameraSpeed ≤ 10) (n : ℕ) :
    1/10 ≤ (scrollRun s (evs.take n)).gCameraSpeed ∧
      (scrollRun s (evs.take n)).gCameraSpeed ≤ 10 :=
  scrollRun_speed_bounds s (evs.take n) hlo hhi

/-- Witness of C1: the constructed state (speed 2.5) under three scroll events, of which
the second overshoots the upper bound and the third the lower bound. -/
theorem Scroll_Callback_speed_invariant_witness :
    (1/10 ≤ (ViewManager none sampleCamera).gCameraSpeed ∧
      (ViewManager none sampleCamera).gCameraSpeed ≤ 10) ∧
    (1/10 ≤ (scrollRun (ViewManager none sampleCamera)
        ([(0, 2), (0, 40), (0, -100)].take 3)).gCameraSpeed ∧
      (scrollRun (ViewManager none sampleCamera)
        ([(0, 2), (0, 40), (0, -100)].take 3)).gCameraSpeed ≤ 10) :=
  ⟨by norm_num [ViewManager],
   Scroll_Callback_speed_invariant (ViewManager none sampleCamera)
    [(0, 2), (0, 40), (0, -100)] (by norm_num [ViewManager])
    (by norm_num [ViewManager]) 3⟩

/-- C2: a scroll event with offset `d` at speed `s` sets the speed to `s + d` saturated
to [0.1, 10.0]: 0.1 below the range, 10.0 above it, `s + d` inside it. A scroll of +2.0
from 2.5 gives 4.5 and from 9.5 gives 10.0. -/
theorem Scroll_Callback_saturates (s : ViewState) (x d : ℚ) :
    (Scroll_Callback s x d).gCameraSpeed =
        (if s.gCameraSpeed + d < 1/10 then 1/10
         else if 10 < s.gCameraSpeed + d then 10
         else s.gCameraSpeed + d) ∧
      (Scroll_Callback { s with gCameraSpeed := 5/2 } x 2).gCameraSpeed = 9/2 ∧
      (Scroll_Callback { s with gCameraSpeed := 19/2 } x 2).gCameraSpeed = 10 := by
  refine ⟨?_, ?_, ?_⟩
  · simp only [Scroll_Callback, glm_clamp, glm_min, glm_max]
    split_ifs <;> first | rfl | linarith
  · simp only [Scroll_Callback, glm_clamp, glm_min, glm_max]
    norm_num
  · simp only [Scroll_Callback, glm_clamp, glm_min, glm_max]
    norm_num

/-- C3: a pointer sample received while the first-sample flag is set changes nothing but
the last pointer position (now the sample), the flag (now clear) and the cursor (put
back at the window centre): the camera object is left as it was, whatever the camera's
`ProcessMouseMovement` would do. -/
theorem Mouse_Position_Callback_first_sample (api : CameraApi) (s : ViewState) (x y : ℚ)
    (h : s.gFirstMouse = true) :
    Mouse_Position_Callback api s x y =
        { s with gLastX := x, gLastY := y, gFirstMouse := false,
                 cursorPos := some (WINDOW_WIDTH / 2, WINDOW_HEIGHT / 2) } ∧
      (Mouse_Position_Callback api s x y).g_pCamera = s.g_pCamera ∧
      (Mouse_Position_Callback api s x y).gLastX = x ∧
      (Mouse_Position_Callback api s x y).gLastY = y ∧
      (Mouse_Position_Callback api s x y).gFirstMouse = false := by
  simp [Mouse_Position_Callback, h]

/-- Witness of C3: the first sample (512, 384) after window creation. -/
theorem Mouse_Position_Callback_first_sample_witness :
    sampleState.gFirstMouse = true ∧
      (Mouse_Position_Callback sampleApi sampleState 512 384).g_pCamera
        = sampleState.g_pCamera ∧
      (Mouse_Position_Callback sampleApi sampleState 512 384).gLastX = 512 ∧
      (Mouse_Position_Callback sampleApi sampleState 512 384).gLastY = 384 ∧
      (Mouse_Position_Callback sampleApi sampleState 512 384).gFirstMouse = false :=
  ⟨rfl, (Mouse_Position_Callback_first_sample sampleApi sampleState 512 384 rfl).2⟩

/-- C4: with the first-sample flag clear and a camera present, a pointer sample `(x, y)`
hands the offsets `(x - lastX, lastY - y)` to the camera's `ProcessMouseMovement` and
stores `(x, y)` as the last position. Hence the first two samples `(x1, y1)`, `(x2, y2)`
after window creation hand over `(x2 - x1, y1 - y2)`, in which the window centre the last
position was set to does not occur. -/
theorem Mouse_Position_Callback_offsets (api : CameraApi) (s : ViewState) (c : Camera)
    (x y : ℚ) (s0 : ViewState) (c0 : Camera) (x1 y1 x2 y2 : ℚ)
    (h : s.gFirstMouse = false) (hc : s.g_pCamera = some c)
    (hc0 : s0.g_pCamera = some c0) :
    ((Mouse_Position_Callback api s x y).g_pCamera
        = some (api.ProcessMouseMovement c (x - s.gLastX) (s.gLastY - y)) ∧
      (Mouse_Position_Callback api s x y).gLastX = x ∧
      (Mouse_Position_Callback api s x y).gLastY = y) ∧
    ((Mouse_Position_Callback api
          (Mouse_Position_Callback api (CreateDisplayWindow s0) x1 y1) x2 y2).g_pCamera
        = some (api.ProcessMouseMovement c0 (x2 - x1) (y1 - y2)) ∧
      (Mouse_Position_Callback api
          (Mouse_Position_Callback api (CreateDisplayWindow s0) x1 y1) x2 y2).gLastX = x2 ∧
      (Mouse_Position_Callback api
          (Mouse_Position_Callback api (CreateDisplayWindow s0) x1 y1) x2 y2).gLastY = y2) := by
  refine ⟨?_, ?_⟩
  · simp [Mouse_Position_Callback, h, hc]
  · simp [Mouse_Position_Callback, CreateDisplayWindow, hc0]

/-- Witness of C4: after window creation the samples (512, 384) and (520, 380); the
camera receives the offsets (8, 4). -/
theorem Mouse_Position_Callback_offsets_witness :
    ((Mouse_Position_Callback sampleApi sampleState 512 384).gFirstMouse = false ∧
      (ViewManager none sampleCamera).g_pCamera
        = some { sampleCamera with Position := ⟨1/2, 11/2, 10⟩, Front := ⟨0, -1/2, -2⟩,
                                   Up := ⟨0, 1, 0⟩, Zoom := 80 }) ∧
    (Mouse_Position_Callback sampleApi
        (Mouse_Position_Callback sampleApi
          (CreateDisplayWindow (ViewManager none sampleCamera)) 512 384) 520 380).g_pCamera
      = some (sampleApi.ProcessMouseMovement
          { sampleCamera with Position := ⟨1/2, 11/2, 10⟩, Front := ⟨0, -1/2, -2⟩,
                              Up := ⟨0, 1, 0⟩, Zoom := 80 }
          (520 - 512) (384 - 380)) :=
  ⟨⟨rfl, rfl⟩, (Mouse_Position_Callback_offsets sampleApi
      (Mouse_Position_Callback sampleApi sampleState 512 384)
      { sampleCamera with Position := ⟨1/2, 11/2, 10⟩, Front := ⟨0, -1/2, -2⟩,
                          Up := ⟨0, 1, 0⟩, Zoom := 80 }
      520 380 (ViewManager none sampleCamera)
      { sampleCamera with Position := ⟨1/2, 11/2, 10⟩, Front := ⟨0, -1/2, -2⟩,
                          Up := ⟨0, 1, 0⟩, Zoom := 80 }
      512 384 520 380 rfl rfl rfl).2.1⟩

/-! ### Pitch under pointer samples -/

theorem updateCameraVectors_Pitch (P : CameraParams) (c : Camera) :
    (Camera.updateCameraVectors P c).Pitch = c.Pitch := rfl

theorem ProcessMouseMovement_Pitch (P : CameraParams) (c : Camera) (dx dy : ℚ) :
    (Camera.ProcessMouseMovement P c dx dy).Pitch
      = glm_clamp (c.Pitch + dy * P.MouseSensitivity) P.PitchMin P.PitchMax := rfl

theorem Mouse_Position_Callback_keeps_pitch (P : CameraParams) (mats : CameraApi) (s : ViewState)
    (x y : ℚ) (hmin : -90 < P.PitchMin) (hle : P.PitchMin ≤ P.PitchMax)
    (hmax : P.PitchMax < 90)
    (h : ∃ c, s.g_pCamera = some c ∧ -90 < c.Pitch ∧ c.Pitch < 90) :
    ∃ c, (Mouse_Position_Callback (specCamera P mats) s x y).g_pCamera = some c ∧
      -90 < c.Pitch ∧ c.Pitch < 90 := by
  obtain ⟨c, hc, hlo, hhi⟩ := h
  by_cases hf : s.gFirstMouse = true
  · exact ⟨c, by simp [Mouse_Position_Callback, hf, hc], hlo, hhi⟩
  · refine ⟨Camera.ProcessMouseMovement P c (x - s.gLastX) (s.gLastY - y), ?_, ?_, ?_⟩
    · simp [Mouse_Position_Callback, hf, hc, specCamera]
    · rw [ProcessMouseMovement_Pitch]
      exact lt_of_lt_of_le hmin (glm_clamp_lower _ _ _ hle)
    · rw [ProcessMouseMovement_Pitch]
      exact lt_of_le_of_lt (glm_clamp_upper _ _ _) hmax

theorem pointerRun_snoc (api : CameraApi) (s : ViewState) (samples : List (ℚ × ℚ))
    (p : ℚ × ℚ) :
    pointerRun api s (samples ++ [p])
      = Mouse_Position_Callback api (pointerRun api s samples) p.1 p.2 := by
  simp [pointerRun, List.foldl_append]

theorem pointerRun_pitch (P : CameraParams) (mats : CameraApi) (s : ViewState)
    (samples : List (ℚ × ℚ)) (hmin : -90 < P.PitchMin) (hle : P.PitchMin ≤ P.PitchMax)
    (hmax : P.PitchMax < 90)
    (h : ∃ c, s.g_pCamera = some c ∧ -90 < c.Pitch ∧ c.Pitch < 90) :
    ∃ c, (pointerRun (specCamera P mats) s samples).g_pCamera = some c ∧
      -90 < c.Pitch ∧ c.Pitch < 90 := by
  induction samples using List.reverseRecOn with
  | nil => exact h
  | append_singleton samples p ih =>
    rw [pointerRun_snoc]
    exact Mouse_Position_Callback_keeps_pitch P mats _ _ _ hmin hle hmax ih

/-- C5: with the camera's pointer handling as the specification describes it (pitch
clamped to bounds strictly inside (-90, 90)) and a camera whose pitch starts strictly
inside (-90, 90), after each sample of any finite sequence of pointer samples the camera
is still there and its pitch is strictly inside (-90, 90). -/
theorem Mouse_Position_Callback_pitch_invariant (P : CameraParams) (mats : CameraApi)
    (s : ViewState) (c0 : Camera) (samples : List (ℚ × ℚ))
    (hmin : -90 < P.PitchMin) (hle : P.PitchMin ≤ P.PitchMax) (hmax : P.PitchMax < 90)
    (hc : s.g_pCamera = some c0) (h0 : -90 < c0.Pitch ∧ c0.Pitch < 90) (n : ℕ) :
    ∃ c, (pointerRun (specCamera P mats) s (samples.take n)).g_pCamera = some c ∧
      -90 < c.Pitch ∧ c.Pitch < 90 :=
  pointerRun_pitch P mats s (samples.take n) hmin hle hmax ⟨c0, hc, h0⟩

/-- Witness of C5: after window creation, a baseline sample followed by two samples that
drag the pointer 5000 pixels up and then 9000 pixels down. -/
theorem Mouse_Position_Callback_pitch_invariant_witness :
    ((-90 : ℚ) < sampleParams.PitchMin ∧ sampleParams.PitchMin ≤ sampleParams.PitchMax ∧
      sampleParams.PitchMax < 90) ∧
    ∃ c, (pointerRun (specCamera sampleParams sampleApi) sampleState
        ([(500, 400), (500, -4600), (500, 4400)].take 3)).g_pCamera = some c ∧
      -90 < c.Pitch ∧ c.Pitch < 90 :=
  ⟨by norm_num [sampleParams],
   Mouse_Position_Callback_pitch_invariant sampleParams sampleApi sampleState
    { sampleCamera with Position := ⟨1/2, 11/2, 10⟩, Front := ⟨0, -1/2, -2⟩,
                        Up := ⟨0, 1, 0⟩, Zoom := 80 }
    [(500, 400), (500, -4600), (500, 4400)]
    (by norm_num [sampleParams]) (by norm_num [sampleParams]) (by norm_num [sampleParams])
    rfl (by norm_num [sampleCamera]) 3⟩

/-! ### The orientation basis -/

theorem keyStep_Front_Up (api : CameraApi) (keys : Keys) (k : Key) (d : Camera_Movement)
    (t : ℚ) (c : Camera)
    (hk : ∀ c d t, (api.ProcessKeyboard c d t).Front = c.Front ∧
      (api.ProcessKeyboard c d t).Up = c.Up) :
    (keyStep api keys k d t c).Front = c.Front ∧ (keyStep api keys k d t c).Up = c.Up := by
  unfold keyStep
  split_ifs
  · exact hk c d t
  · exact ⟨rfl, rfl⟩

theorem ProcessKeyboardEvents_Front_Up (api : CameraApi) (s : ViewState) (keys : Keys)
    (c : Camera)
    (hk : ∀ c d t, (api.ProcessKeyboard c d t).Front = c.Front ∧
      (api.ProcessKeyboard c d t).Up = c.Up)
    (hc : s.g_pCamera = some c) :
    ∃ c1, (ProcessKeyboardEvents api s keys).g_pCamera = some c1 ∧
      c1.Front = c.Front ∧ c1.Up = c.Up ∧
      (ProcessKeyboardEvents api s keys).gFirstMouse = s.gFirstMouse ∧
      (ProcessKeyboardEvents api s keys).m_pShaderManager = s.m_pShaderManager := by
  have hs : (if keys Key.ESCAPE = true then { s with windowShouldClose := true } else s).g_pCamera
      = some c := by
    split_ifs <;> exact hc
  unfold ProcessKeyboardEvents
  simp only [hs]
  refine ⟨_, rfl, ?_, ?_, ?_, ?_⟩
  · simp only [(keyStep_Front_Up api keys _ _ _ _ hk).1]
  · simp only [(keyStep_Front_Up api keys _ _ _ _ hk).2]
  · split_ifs <;> rfl
  · split_ifs <;> rfl

theorem PrepareSceneView_Front_Up (api : CameraApi) (s : ViewState) (keys : Keys) (t : ℚ)
    (c : Camera)
    (hk : ∀ c d t, (api.ProcessKeyboard c d t).Front = c.Front ∧
      (api.ProcessKeyboard c d t).Up = c.Up)
    (hc : s.g_pCamera = some c) :
    ∃ s1 c1, PrepareSceneView api s keys t = some s1 ∧ s1.g_pCamera = some c1 ∧
      c1.Front = c.Front ∧ c1.Up = c.Up ∧ s1.gFirstMouse = s.gFirstMouse := by
  obtain ⟨c1, h1, hF, hU, hM, _⟩ := ProcessKeyboardEvents_Front_Up api
    { s with gDeltaTime := t - s.gLastFrame, gLastFrame := t } keys c hk hc
  unfold PrepareSceneView
  simp only [h1]
  cases hsm : (ProcessKeyboardEvents api
      { s with gDeltaTime := t - s.gLastFrame, gLastFrame := t } keys).m_pShaderManager with
  | none => exact ⟨_, c1, rfl, h1, hF, hU, hM⟩
  | some sm => exact ⟨_, c1, rfl, rfl, hF, hU, hM⟩

theorem run_Front_Up (api : CameraApi)
    (hk : ∀ c d t, (api.ProcessKeyboard c d t).Front = c.Front ∧
      (api.ProcessKeyboard c d t).Up = c.Up)
    (F U : Vec3) (evs : List Event) :
    ∀ s : ViewState, (∃ c, s.g_pCamera = some c ∧ c.Front = F ∧ c.Up = U) →
      ((s.gFirstMouse = true ∧ pointerCount evs ≤ 1) ∨ pointerCount evs = 0) →
      ∃ s1 c1, run api s evs = some s1 ∧ s1.g_pCamera = some c1 ∧
        c1.Front = F ∧ c1.Up = U := by
  induction evs with
  | nil =>
    intro s h _
    obtain ⟨c, hc, hF, hU⟩ := h
    exact ⟨s, c, rfl, hc, hF, hU⟩
  | cons e es ih =>
    intro s h hp
    obtain ⟨c, hc, hF, hU⟩ := h
    cases e with
    | pointer x y =>
      have hfirst : s.gFirstMouse = true ∧ pointerCount es = 0 := by
        rcases hp with ⟨hf, hn⟩ | hn
        · exact ⟨hf, by simp only [pointerCount] at hn; omega⟩
        · simp only [pointerCount] at hn; omega
      have hstep : (Mouse_Position_Callback api s x y).g_pCamera = s.g_pCamera := by
        simp [Mouse_Position_Callback, hfirst.1]
      simpa [run, step] using
        ih (Mouse_Position_Callback api s x y) ⟨c, by rw [hstep, hc], hF, hU⟩
          (Or.inr hfirst.2)
    | scroll x y =>
      simpa [run, step] using
        ih (Scroll_Callback s x y) ⟨c, hc, hF, hU⟩
          (by simpa [pointerCount, Scroll_Callback] using hp)
    | frame keys t =>
      obtain ⟨s1, c1, h1, hc1, hF1, hU1, hM1⟩ :=
        PrepareSceneView_Front_Up api s keys t c hk hc
      have := ih s1 ⟨c1, hc1, hF1.trans hF, hU1.trans hU⟩
        (by simpa [pointerCount, hM1] using hp)
      simpa [run, step, h1] using this

/-- C7: with a single movement key held, `ProcessKeyboardEvents` hands the camera's
`ProcessKeyboard` the key's direction and the step `gDeltaTime * gCameraSpeed`. With the
camera's keyboard motion as the specification describes it, the change of position for
delta time `t` is the direction vector times `t * speed`, and for delta time `2 * t` it
is twice that. -/
theorem ProcessKeyboardEvents_single_key (api : CameraApi) (s : ViewState) (c : Camera)
    (k : Key) (d : Camera_Movement) (t : ℚ)
    (hc : s.g_pCamera = some c) (hk : movementKey k = some d) :
    (ProcessKeyboardEvents api s (holding [k])).g_pCamera
        = some (api.ProcessKeyboard c d (s.gDeltaTime * s.gCameraSpeed)) ∧
      positionChange { api with ProcessKeyboard := Camera.ProcessKeyboard }
          { s with gDeltaTime := t } (holding [k])
        = some ((c.moveVector d).scale (t * s.gCameraSpeed)) ∧
      positionChange { api with ProcessKeyboard := Camera.ProcessKeyboard }
          { s with gDeltaTime := 2 * t } (holding [k])
        = some (((c.moveVector d).scale (t * s.gCameraSpeed)).scale 2) := by
  cases k <;> simp only [movementKey, Option.some.injEq, reduceCtorEq] at hk <;> subst hk <;>
    refine ⟨?_, ?_, ?_⟩ <;>
    simp [positionChange, ProcessKeyboardEvents, keyStep, holding, hc,
      Camera.ProcessKeyboard, Camera.moveVector, Vec3.add, Vec3.sub, Vec3.scale] <;>
    refine ⟨?_, ?_, ?_⟩ <;> ring

/-- Witness of C7: the constructed camera with W held, speed 2.5, delta time 1/60. -/
theorem ProcessKeyboardEvents_single_key_witness :
    movementKey Key.W = some Camera_Movement.FORWARD ∧
      positionChange { sampleApi with ProcessKeyboard := Camera.ProcessKeyboard }
          { sampleState with gDeltaTime := 2 * (1/60) } (holding [Key.W])
        = some (((Vec3.mk 0 (-1/2) (-2)).scale (1/60 * sampleState.gCameraSpeed)).scale 2) :=
  ⟨rfl, (ProcessKeyboardEvents_single_key sampleApi sampleState
      { sampleCamera with Position := ⟨1/2, 11/2, 10⟩, Front := ⟨0, -1/2, -2⟩,
                          Up := ⟨0, 1, 0⟩, Zoom := 80 }
      Key.W Camera_Movement.FORWARD (1/60) rfl rfl).2.2⟩

/-- C8: with the camera's keyboard motion as the specification describes it, holding two
different movement keys in one `ProcessKeyboardEvents` call changes the position by the
sum of the changes each key produces alone; for W and D together that is
`Front * step + Right * step` with `step = gDeltaTime * gCameraSpeed`, not rescaled. -/
theorem ProcessKeyboardEvents_two_keys (api : CameraApi) (s : ViewState) (c : Camera)
    (a b : Key) (da db : Camera_Movement)
    (hc : s.g_pCamera = some c) (ha : movementKey a = some da)
    (hb : movementKey b = some db) (hab : a ≠ b) :
    (∃ va vb,
      positionChange { api with ProcessKeyboard := Camera.ProcessKeyboard } s (holding [a])
        = some va ∧
      positionChange { api with ProcessKeyboard := Camera.ProcessKeyboard } s (holding [b])
        = some vb ∧
      positionChange { api with ProcessKeyboard := Camera.ProcessKeyboard } s (holding [a, b])
        = some (va.add vb)) ∧
    positionChange { api with ProcessKeyboard := Camera.ProcessKeyboard } s
        (holding [Key.W, Key.D])
      = some ((c.Front.scale (s.gDeltaTime * s.gCameraSpeed)).add
          (c.Right.scale (s.gDeltaTime * s.gCameraSpeed))) := by
  refine ⟨?_, ?_⟩
  · cases a <;> simp only [movementKey, Option.some.injEq, reduceCtorEq] at ha <;>
      cases b <;> simp only [movementKey, Option.some.injEq, reduceCtorEq] at hb <;>
      first
        | exact absurd rfl hab
        | (simp [positionChange, ProcessKeyboardEvents, keyStep, holding, hc,
            Camera.ProcessKeyboard, Vec3.add, Vec3.sub, Vec3.scale] <;>
           refine ⟨?_, ?_, ?_⟩ <;> ring)
  · simp [positionChange, ProcessKeyboardEvents, keyStep, holding, hc,
      Camera.ProcessKeyboard, Vec3.add, Vec3.sub, Vec3.scale]
    refine ⟨?_, ?_, ?_⟩ <;> ring

/-- Witness of C8: W and D held together on the state after window creation, delta time
1/60. -/
theorem ProcessKeyboardEvents_two_keys_witness :
    (movementKey Key.W = some Camera_Movement.FORWARD ∧
      movementKey Key.D = some Camera_Movement.RIGHT ∧ Key.W ≠ Key.D) ∧
    positionChange { sampleApi with ProcessKeyboard := Camera.ProcessKeyboard }
        { sampleState with gDeltaTime := 1/60 } (holding [Key.W, Key.D])
      = some (((Vec3.mk 0 (-1/2) (-2)).scale (1/60 * (5/2))).add
          ((Vec3.mk 1 0 0).scale (1/60 * (5/2)))) :=
  ⟨⟨rfl, rfl, by decide⟩,
   (ProcessKeyboardEvents_two_keys sampleApi { sampleState with gDeltaTime := 1/60 }
      { sampleCamera with Position := ⟨1/2, 11/2, 10⟩, Front := ⟨0, -1/2, -2⟩,
                          Up := ⟨0, 1, 0⟩, Zoom := 80 }
      Key.W Key.D Camera_Movement.FORWARD Camera_Movement.RIGHT rfl rfl rfl
      (by decide)).2⟩

/-! ### Frame timing -/

theorem ProcessKeyboardEvents_clock (api : CameraApi) (s : ViewState) (keys : Keys)
    (c : Camera) (hc : s.g_pCamera = some c) :
    ∃ c1, (ProcessKeyboardEvents api s keys).g_pCamera = some c1 ∧
      (ProcessKeyboardEvents api s keys).gDeltaTime = s.gDeltaTime ∧
      (ProcessKeyboardEvents api s keys).gLastFrame = s.gLastFrame := by
  have hs : (if keys Key.ESCAPE = true then { s with windowShouldClose := true } else s).g_pCamera
      = some c := by
    split_ifs <;> exact hc
  unfold ProcessKeyboardEvents
  simp only [hs]
  refine ⟨_, rfl, ?_, ?_⟩ <;> split_ifs <;> rfl

theorem PrepareSceneView_clock (api : CameraApi) (s : ViewState) (keys : Keys) (t : ℚ)
    (c : Camera) (hc : s.g_pCamera = some c) :
    ∃ s1 c1, PrepareSceneView api s keys t = some s1 ∧ s1.g_pCamera = some c1 ∧
      s1.gDeltaTime = t - s.gLastFrame ∧ s1.gLastFrame = t := by
  obtain ⟨c1, h1, hD, hL⟩ := ProcessKeyboardEvents_clock api
    { s with gDeltaTime := t - s.gLastFrame, gLastFrame := t } keys c hc
  unfold PrepareSceneView
  simp only [h1]
  cases hsm : (ProcessKeyboardEvents api
      { s with gDeltaTime := t - s.gLastFrame, gLastFrame := t } keys).m_pShaderManager with
  | none => exact ⟨_, c1, rfl, h1, hD, hL⟩
  | some sm => exact ⟨_, c1, rfl, rfl, hD, hL⟩

theorem frameRun_append (api : CameraApi) (fs gs : List (Keys × ℚ)) :
    ∀ s : ViewState,
      frameRun api s (fs ++ gs) = (frameRun api s fs).bind (fun s1 => frameRun api s1 gs) := by
  induction fs with
  | nil => intro s; rfl
  | cons f fs ih =>
    intro s
    simp only [List.cons_append, frameRun]
    cases PrepareSceneView api s f.1 f.2 with
    | none => rfl
    | some s1 => simpa using ih s1

theorem frameRun_camera (api : CameraApi) (fs : List (Keys × ℚ)) :
    ∀ (s : ViewState) (c : Camera), s.g_pCamera = some c →
      ∃ s1 c1, frameRun api s fs = some s1 ∧ s1.g_pCamera = some c1 := by
  induction fs with
  | nil => intro s c hc; exact ⟨s, c, rfl, hc⟩
  | cons f fs ih =>
    intro s c hc
    obtain ⟨s1, c1, h1, hc1, _, _⟩ := PrepareSceneView_clock api s f.1 f.2 c hc
    obtain ⟨s2, c2, h2, hc2⟩ := ih s1 c1 hc1
    exact ⟨s2, c2, by simp [frameRun, h1, h2], hc2⟩

theorem frameRun_delta_nonneg (api : CameraApi) (fs : List (Keys × ℚ)) :
    ∀ (s : ViewState) (c : Camera) (n : ℕ), s.g_pCamera = some c →
      List.Chain (fun a b => a ≤ b) s.gLastFrame (fs.map Prod.snd) → n < fs.length →
      ∃ s1, frameRun api s (fs.take (n + 1)) = some s1 ∧ 0 ≤ s1.gDeltaTime := by
  induction fs with
  | nil => intro s c n _ _ hn; simp at hn
  | cons f fs ih =>
    intro s c n hc hch hn
    obtain ⟨s1, c1, h1, hc1, hD, hL⟩ := PrepareSceneView_clock api s f.1 f.2 c hc
    simp only [List.map_cons, List.chain_cons] at hch
    cases n with
    | zero =>
      refine ⟨s1, by simp [frameRun, h1], ?_⟩
      rw [hD]
      linarith [hch.1]
    | succ m =>
      have hm : m < fs.length := by simpa using hn
      obtain ⟨s2, h2, hD2⟩ := ih s1 c1 m hc1 (by rw [hL]; exact hch.2) hm
      exact ⟨s2, by simpa [frameRun, h1] using h2, hD2⟩

/-- C9, as amended: the delta time `PrepareSceneView` computes is the plain difference
between the current reading and the previous one (nothing is clamped). Over a sequence
of readings in which no reading is smaller than the one before (the first not smaller
than the stored last reading), the delta time after every call is non-negative. -/
theorem PrepareSceneView_delta_nonneg (api : CameraApi) (s : ViewState) (c : Camera)
    (frames : List (Keys × ℚ)) (n : ℕ) (hc : s.g_pCamera = some c)
    (hmono : List.Chain (fun a b => a ≤ b) s.gLastFrame (frames.map Prod.snd))
    (hn : n < frames.length) :
    (∃ s1, frameRun api s (frames.take (n + 1)) = some s1 ∧ 0 ≤ s1.gDeltaTime) ∧
    ∀ (keys : Keys) (t : ℚ),
      ∃ s1, PrepareSceneView api s keys t = some s1 ∧ s1.gDeltaTime = t - s.gLastFrame :=
  ⟨frameRun_delta_nonneg api frames s c n hc hmono hn, fun keys t =>
    (PrepareSceneView_clock api s keys t c hc).elim
      (fun s1 h => h.elim (fun _ h1 => ⟨s1, h1.1, h1.2.2.1⟩))⟩

/-- Witness of C9 as amended: three frames read at 5, 5 and 7 seconds after window
creation. -/
theorem PrepareSceneView_delta_nonneg_witness :
    List.Chain (fun a b : ℚ => a ≤ b) sampleState.gLastFrame
        ([(holding [], (5 : ℚ)), (holding [Key.W], 5), (holding [], 7)].map Prod.snd) ∧
    ∃ s1, frameRun sampleApi sampleState
        ([(holding [], (5 : ℚ)), (holding [Key.W], 5), (holding [], 7)].take (2 + 1))
          = some s1 ∧ 0 ≤ s1.gDeltaTime :=
  ⟨by norm_num [sampleState, CreateDisplayWindow, ViewManager],
   (PrepareSceneView_delta_nonneg sampleApi sampleState
      { sampleCamera with Position := ⟨1/2, 11/2, 10⟩, Front := ⟨0, -1/2, -2⟩,
                          Up := ⟨0, 1, 0⟩, Zoom := 80 }
      [(holding [], (5 : ℚ)), (holding [Key.W], 5), (holding [], 7)] 2 rfl
      (by norm_num [sampleState, CreateDisplayWindow, ViewManager])
      (by decide)).1⟩

/-- Counterexample to C9 as stated: a frame read at 5 seconds followed by a frame read at
3 seconds, W held, leaves the delta time at -2; the step handed to the camera is
`-2 * 2.5 = -5`, which moves the eye from (0.5, 5.5, 10) to (0.5, 8, 20), against
`Front`. -/
theorem PrepareSceneView_delta_negative :
    ∃ s1 s2, PrepareSceneView sampleApi sampleState (holding []) 5 = some s1 ∧
      PrepareSceneView sampleApi s1 (holding [Key.W]) 3 = some s2 ∧
      s2.gDeltaTime = -2 ∧ ¬ (0 ≤ s2.gDeltaTime) ∧
      s2.g_pCamera.map (fun c => c.Position) = some ⟨1/2, 8, 20⟩ := by
  refine ⟨_, _, rfl, rfl, ?_, ?_, ?_⟩ <;>
    simp [sampleState, CreateDisplayWindow, ViewManager, ProcessKeyboardEvents,
      holding, keyStep, sampleApi, sampleCamera, Camera.ProcessKeyboard, Vec3.add,
      Vec3.scale] <;>
    norm_num

/-- C10, as amended: on the first `PrepareSceneView` call after startup the delta time
is the time-source reading `t0` itself (the stored last reading starts at 0), so it grows
with the time that passed before the first frame; on every later call it is the current
reading minus the reading of the call before. -/
theorem PrepareSceneView_delta_first_and_later (api : CameraApi)
    (sh : Option ShaderManager) (cam0 : Camera) (f g : Keys × ℚ)
    (pre : List (Keys × ℚ)) :
    (∃ s1, frameRun api (CreateDisplayWindow (ViewManager sh cam0)) [f] = some s1 ∧
      s1.gDeltaTime = f.2) ∧
    (∃ s2, frameRun api (CreateDisplayWindow (ViewManager sh cam0)) (pre ++ [f, g])
        = some s2 ∧ s2.gDeltaTime = g.2 - f.2) := by
  constructor
  · obtain ⟨s1, c1, h1, _, hD, _⟩ := PrepareSceneView_clock api
      (CreateDisplayWindow (ViewManager sh cam0)) f.1 f.2 _ rfl
    refine ⟨s1, by simp [frameRun, h1], ?_⟩
    rw [hD]
    simp [CreateDisplayWindow, ViewManager]
  · obtain ⟨s0, c0, h0, hc0⟩ := frameRun_camera api pre
      (CreateDisplayWindow (ViewManager sh cam0)) _ rfl
    obtain ⟨s1, c1, h1, hc1, _, hL⟩ := PrepareSceneView_clock api s0 f.1 f.2 c0 hc0
    obtain ⟨s2, c2, h2, _, hD2, _⟩ := PrepareSceneView_clock api s1 g.1 g.2 c1 hc1
    refine ⟨s2, by simp [frameRun_append, frameRun, h0, h1, h2], ?_⟩
    rw [hD2, hL]

/-- Counterexample to C10 as stated: when the first frame is prepared an hour after the
time source started (reading 3600), the first delta time is 3600, and when it is
prepared after one second it is 1: the first delta is the elapsed time, not zero. -/
theorem PrepareSceneView_first_delta_not_zero :
    (∃ s1, PrepareSceneView sampleApi sampleState (holding []) 3600 = some s1 ∧
      s1.gDeltaTime = 3600) ∧
    (∃ s1, PrepareSceneView sampleApi sampleState (holding []) 1 = some s1 ∧
      s1.gDeltaTime = 1) := by
  constructor <;> refine ⟨_, rfl, ?_⟩ <;>
    simp [sampleState, CreateDisplayWindow, ViewManager, ProcessKeyboardEvents,
      holding]

/-! ### Projection upload and the main loop -/

theorem glm_perspective_ne_glm_ortho (z a n f l r b t n1 f1 : ℚ) :
    glm_perspective z a n f ≠ glm_ortho l r b t n1 f1 := by
  intro h
  have h33 := congrFun (congrFun h 3) 3
  simp [glm_perspective, glm_ortho] at h33

theorem ProcessKeyboardEvents_shader (api : CameraApi) (s : ViewState) (keys : Keys)
    (c : Camera) (hc : s.g_pCamera = some c) :
    ∃ c1, (ProcessKeyboardEvents api s keys).g_pCamera = some c1 ∧
      (ProcessKeyboardEvents api s keys).m_pShaderManager = s.m_pShaderManager := by
  have hs : (if keys Key.ESCAPE = true then { s with windowShouldClose := true } else s).g_pCamera
      = some c := by
    split_ifs <;> exact hc
  unfold ProcessKeyboardEvents
  simp only [hs]
  refine ⟨_, rfl, ?_⟩
  split_ifs <;> rfl

theorem PrepareSceneView_uploads (api : CameraApi) (s : ViewState) (keys : Keys) (t : ℚ)
    (c : Camera) (sm : ShaderManager) (hc : s.g_pCamera = some c)
    (hs : s.m_pShaderManager = some sm) :
    ∃ s1 c1, PrepareSceneView api s keys t = some s1 ∧ s1.g_pCamera = some c1 ∧
      s1.uniform "projection"
        = some (UniformValue.mat4 (api.GetProjectionMatrix c1 (WINDOW_WIDTH / WINDOW_HEIGHT))) ∧
      s1.uniform "viewPosition" = some (UniformValue.vec3 c1.Position) := by
  obtain ⟨c1, h1, hS⟩ := ProcessKeyboardEvents_shader api
    { s with gDeltaTime := t - s.gLastFrame, gLastFrame := t } keys c hc
  have hS1 : (ProcessKeyboardEvents api
      { s with gDeltaTime := t - s.gLastFrame, gLastFrame := t } keys).m_pShaderManager
      = some sm := by rw [hS]; exact hs
  unfold PrepareSceneView
  simp only [h1, hS1]
  refine ⟨_, c1, rfl, rfl, ?_, ?_⟩ <;>
    simp [ViewState.uniform, ShaderManager.setMat4Value, ShaderManager.setVec3Value,
      g_ProjectionName, g_ViewName]

/-- C11 (the code departs from it): in a loop pass with the O key pressed, `processInput`
sets `projection` to `ortho(-5, 5, -5, 5, 0.1, 100)` and `main` uploads it, but
`PrepareSceneView` then uploads the camera's `GetProjectionMatrix(1000/800)` under the
same name, so that is what the `projection` uniform holds when `RenderScene` runs. With
the camera's projection as the specification describes it (perspective from the zoom)
the uniform is not the orthographic matrix. -/
theorem main_iteration_projection_overwritten (api : CameraApi) (tanHalf : ℚ → ℚ)
    (p : Mat4) (v : ViewState) (c : Camera) (sm : ShaderManager) (keys : Keys) (t : ℚ) :
    (∃ m1 c1,
      main_iteration api tanHalf
          ⟨p, { v with g_pCamera := some c, m_pShaderManager := some sm }⟩
          (fun k => decide (k = Key.O) || keys k) t = some m1 ∧
      m1.projection = glm_ortho (-5) 5 (-5) 5 (1/10) 100 ∧
      m1.g_ViewManager.g_pCamera = some c1 ∧
      m1.g_ViewManager.uniform "projection"
        = some (UniformValue.mat4 (api.GetProjectionMatrix c1 (1000 / 800)))) ∧
    (∃ m1 c1,
      main_iteration { api with GetProjectionMatrix := Camera.GetProjectionMatrix tanHalf }
          tanHalf ⟨p, { v with g_pCamera := some c, m_pShaderManager := some sm }⟩
          (fun k => decide (k = Key.O) || keys k) t = some m1 ∧
      m1.g_ViewManager.g_pCamera = some c1 ∧
      m1.g_ViewManager.uniform "projection"
        = some (UniformValue.mat4 (glm_perspective (tanHalf c1.Zoom) (1000 / 800) (1/10) 100)) ∧
      m1.g_ViewManager.uniform "projection"
        ≠ some (UniformValue.mat4 (glm_ortho (-5) 5 (-5) 5 (1/10) 100))) := by
  constructor
  · obtain ⟨s1, c1, h1, hc1, hu, _⟩ := PrepareSceneView_uploads api
      { v with g_pCamera := some c,
               m_pShaderManager := some (sm.setMat4Value "projection"
                 (processInput tanHalf (fun k => decide (k = Key.O) || keys k) p)) }
      (fun k => decide (k = Key.O) || keys k) t c _ rfl rfl
    refine ⟨⟨processInput tanHalf (fun k => decide (k = Key.O) || keys k) p, s1⟩, c1,
      by simp only [main_iteration, h1], ?_, hc1, ?_⟩
    · simp [processInput]
    · simpa [WINDOW_WIDTH, WINDOW_HEIGHT] using hu
  · obtain ⟨s1, c1, h1, hc1, hu, _⟩ := PrepareSceneView_uploads
      { api with GetProjectionMatrix := Camera.GetProjectionMatrix tanHalf }
      { v with g_pCamera := some c,
               m_pShaderManager := some (sm.setMat4Value "projection"
                 (processInput tanHalf (fun k => decide (k = Key.O) || keys k) p)) }
      (fun k => decide (k = Key.O) || keys k) t c _ rfl rfl
    have hu1 : s1.uniform "projection"
        = some (UniformValue.mat4 (glm_perspective (tanHalf c1.Zoom) (1000 / 800) (1/10) 100)) := by
      simpa [WINDOW_WIDTH, WINDOW_HEIGHT, Camera.GetProjectionMatrix] using hu
    refine ⟨⟨processInput tanHalf (fun k => decide (k = Key.O) || keys k) p, s1⟩, c1,
      by simp only [main_iteration, h1], hc1, hu1, ?_⟩
    show s1.uniform "projection" ≠ _
    rw [hu1]
    intro h
    exact glm_perspective_ne_glm_ortho _ _ _ _ _ _ _ _ _ _
      (UniformValue.mat4.inj (Option.some.inj h))

/-- C12, as amended: whenever `MainCode.cpp` builds the perspective projection (at
startup, and in `processInput` with P pressed and O not pressed) its field of view is
the file's own `fov` of 45 degrees, with aspect 1280/720, near 0.1 and far 100; the
camera's zoom, which the constructor has set to 80, is not used. -/
theorem processInput_perspective_fov (tanHalf : ℚ → ℚ) (sm0 : ShaderManager)
    (cam0 : Camera) (keys : Keys) (p : Mat4)
    (hP : keys Key.P = true) (hO : keys Key.O = false) :
    (main_init tanHalf sm0 cam0).projection
        = glm_perspective (tanHalf 45) (1280 / 720) (1/10) 100 ∧
      processInput tanHalf keys p = glm_perspective (tanHalf 45) (1280 / 720) (1/10) 100 ∧
      ∃ c, (main_init tanHalf sm0 cam0).g_ViewManager.g_pCamera = some c ∧ c.Zoom = 80 := by
  refine ⟨?_, ?_, _, rfl, rfl⟩
  · simp [main_init, fov, SCR_WIDTH, SCR_HEIGHT]
  · simp [processInput, hP, hO, fov, SCR_WIDTH, SCR_HEIGHT]

/-- Witness of C12 as amended: only P held. -/
theorem processInput_perspective_fov_witness :
    (holding [Key.P] Key.P = true ∧ holding [Key.P] Key.O = false) ∧
      processInput tanHalfApprox (holding [Key.P]) (glm_ortho (-5) 5 (-5) 5 (1/10) 100)
        = glm_perspective (tanHalfApprox 45) (1280 / 720) (1/10) 100 :=
  ⟨⟨by decide, by decide⟩,
   (processInput_perspective_fov tanHalfApprox sampleShader sampleCamera (holding [Key.P])
      (glm_ortho (-5) 5 (-5) 5 (1/10) 100) (by decide) (by decide)).2.1⟩

/-- Counterexample to C12 as stated: at startup the camera's zoom is 80, and the
perspective `main` builds is not the one for a field of view of 80 degrees (entry (1,1)
is `1 / tan(45/2)`, not `1 / tan(80/2)`), here with the sample tangent. -/
theorem main_init_fov_not_zoom :
    ∃ c, (main_init tanHalfApprox sampleShader sampleCamera).g_ViewManager.g_pCamera = some c ∧
      c.Zoom = 80 ∧
      (main_init tanHalfApprox sampleShader sampleCamera).projection
        ≠ glm_perspective (tanHalfApprox c.Zoom) (SCR_WIDTH / SCR_HEIGHT) (1/10) 100 := by
  refine ⟨_, rfl, rfl, ?_⟩
  intro h
  have h11 := congrFun (congrFun h 1) 1
  norm_num [main_init, glm_perspective, fov, tanHalfApprox] at h11

/-- C13: with a camera present, `PrepareSceneView` on a view manager without a shader
manager returns normally and still has no shader manager (nothing is uploaded); apart
from the shader manager the resulting state (frame clock, camera after keyboard motion
and all the rest) is the one obtained with a shader manager attached. -/
theorem PrepareSceneView_without_shader (api : CameraApi) (s : ViewState) (keys : Keys)
    (t : ℚ) (c : Camera) (sm : ShaderManager) (hc : s.g_pCamera = some c) :
    ∃ s1 s2,
      PrepareSceneView api { s with m_pShaderManager := none } keys t = some s1 ∧
      PrepareSceneView api { s with m_pShaderManager := some sm } keys t = some s2 ∧
      s1.m_pShaderManager = none ∧
      s1 = { s2 with m_pShaderManager := none } ∧
      s1.gDeltaTime = t - s.gLastFrame ∧ s1.gLastFrame = t ∧
      s1.g_pCamera = s2.g_pCamera := by
  have key : ∀ o : Option ShaderManager,
      ProcessKeyboardEvents api
          { s with m_pShaderManager := o, gDeltaTime := t - s.gLastFrame, gLastFrame := t } keys
        = { ProcessKeyboardEvents api
              { s with m_pShaderManager := none, gDeltaTime := t - s.gLastFrame,
                       gLastFrame := t } keys with m_pShaderManager := o } := by
    intro o
    simp only [ProcessKeyboardEvents]
    split_ifs <;> simp only [hc]
  obtain ⟨c1, h1, hD, hL⟩ := ProcessKeyboardEvents_clock api
    { s with m_pShaderManager := none, gDeltaTime := t - s.gLastFrame, gLastFrame := t }
    keys c hc
  obtain ⟨_, _, hS⟩ := ProcessKeyboardEvents_shader api
    { s with m_pShaderManager := none, gDeltaTime := t - s.gLastFrame, gLastFrame := t }
    keys c hc
  have heta : ∀ x : ViewState, x.m_pShaderManager = none →
      x = { x with m_pShaderManager := none } := by
    intro x hx
    cases x
    simp only [ViewState.mk.injEq, and_true]
    exact hx
  refine ⟨ProcessKeyboardEvents api
      { s with m_pShaderManager := none, gDeltaTime := t - s.gLastFrame, gLastFrame := t } keys,
    { ProcessKeyboardEvents api
        { s with m_pShaderManager := none, gDeltaTime := t - s.gLastFrame, gLastFrame := t }
        keys with
      m_pShaderManager := some (((sm.setMat4Value g_ViewName (api.GetViewMatrix c1)).setMat4Value
        g_ProjectionName (api.GetProjectionMatrix c1 (WINDOW_WIDTH / WINDOW_HEIGHT))).setVec3Value
        "viewPosition" c1.Position) },
    ?_, ?_, hS, heta _ hS, hD, hL, rfl⟩
  · simp only [PrepareSceneView, h1, hS]
  · simp only [PrepareSceneView, key (some sm), h1]

/-- Witness of C13: a frame at reading 2 with W held, on the state after window
creation, with and without the sample shader manager. -/
theorem PrepareSceneView_without_shader_witness :
    sampleState.g_pCamera
        = some { sampleCamera with Position := ⟨1/2, 11/2, 10⟩, Front := ⟨0, -1/2, -2⟩,
                                   Up := ⟨0, 1, 0⟩, Zoom := 80 } ∧
    ∃ s1 s2,
      PrepareSceneView sampleApi { sampleState with m_pShaderManager := none }
          (holding [Key.W]) 2 = some s1 ∧
      PrepareSceneView sampleApi { sampleState with m_pShaderManager := some sampleShader }
          (holding [Key.W]) 2 = some s2 ∧
      s1.m_pShaderManager = none ∧
      s1 = { s2 with m_pShaderManager := none } ∧
      s1.gDeltaTime = 2 - sampleState.gLastFrame ∧ s1.gLastFrame = 2 ∧
      s1.g_pCamera = s2.g_pCamera :=
  ⟨rfl, PrepareSceneView_without_shader sampleApi sampleState (holding [Key.W]) 2 _
    sampleShader rfl⟩

/-- C14: a scroll event changes nothing but the camera speed: the camera object (zoom,
yaw, pitch, position), the last pointer position, the first-sample flag and the frame
clock values are as before, and the resulting state is the same for every `xOffset`. -/
theorem Scroll_Callback_frame (s : ViewState) (xOffset yOffset xOffset1 : ℚ) :
    Scroll_Callback s xOffset yOffset
        = { s with gCameraSpeed := (Scroll_Callback s xOffset yOffset).gCameraSpeed } ∧
      (Scroll_Callback s xOffset yOffset).g_pCamera = s.g_pCamera ∧
      (Scroll_Callback s xOffset yOffset).gLastX = s.gLastX ∧
      (Scroll_Callback s xOffset yOffset).gLastY = s.gLastY ∧
      (Scroll_Callback s xOffset yOffset).gFirstMouse = s.gFirstMouse ∧
      (Scroll_Callback s xOffset yOffset).gDeltaTime = s.gDeltaTime ∧
      (Scroll_Callback s xOffset yOffset).gLastFrame = s.gLastFrame ∧
      Scroll_Callback s xOffset1 yOffset = Scroll_Callback s xOffset yOffset :=
  ⟨rfl, rfl, rfl, rfl, rfl, rfl, rfl, rfl⟩

/-- C20: the projection of `MainCode.cpp` starts as the perspective for 45 degrees,
aspect 1280/720, near 0.1, far 100. `processInput` turns it into
`ortho(-5, 5, -5, 5, 0.1, 100)` when O is pressed (whether or not P is), into that
perspective when P is pressed and O is not, and leaves it alone when neither is;
running it twice on the same keys gives the same as running it once. -/
theorem processInput_by_key (tanHalf : ℚ → ℚ) (sm0 : ShaderManager) (cam0 : Camera)
    (keys : Keys) (p : Mat4) :
    (main_init tanHalf sm0 cam0).projection
        = glm_perspective (tanHalf 45) (1280 / 720) (1/10) 100 ∧
      processInput tanHalf keys p
        = (if keys Key.O = true then glm_ortho (-5) 5 (-5) 5 (1/10) 100
           else if keys Key.P = true then glm_perspective (tanHalf 45) (1280 / 720) (1/10) 100
           else p) ∧
      processInput tanHalf keys (processInput tanHalf keys p) = processInput tanHalf keys p := by
  refine ⟨?_, ?_, ?_⟩
  · simp [main_init, fov, SCR_WIDTH, SCR_HEIGHT]
  · simp only [processInput, fov, SCR_WIDTH, SCR_HEIGHT]
  · simp only [processInput]
    split_ifs <;> rfl

/-! ### Texture registry -/

theorem textureAt_lt (s : SceneState) (index : ℕ) (h : index < 16) :
    s.textureAt index = some (s.m_textureIDs ⟨index, h⟩) := by
  simp [SceneState.textureAt, h]

theorem FindTextureSlot_loop_spec (s : SceneState) (tag : String)
    (h16 : s.m_loadedTextures ≤ 16) :
    ∀ fuel index : ℕ, fuel + index = s.m_loadedTextures →
      (∀ j : Fin 16, j.val < index → (s.m_textureIDs j).tag ≠ tag) →
      ∃ r, FindTextureSlot_loop s tag fuel index = some r ∧ IsFirstSlot s tag r := by
  intro fuel
  induction fuel with
  | zero =>
    intro index hfi hbefore
    have hidx : ¬ index < s.m_loadedTextures := by omega
    refine ⟨-1, by simp [FindTextureSlot_loop, hidx], Or.inl ⟨rfl, ?_⟩⟩
    intro i hi
    exact hbefore i (by omega)
  | succ fuel ih =>
    intro index hfi hbefore
    have hidx : index < s.m_loadedTextures := by omega
    have h : index < 16 := by omega
    by_cases htag : (s.m_textureIDs ⟨index, h⟩).tag = tag
    · refine ⟨(index : ℤ), by simp [FindTextureSlot_loop, hidx, textureAt_lt s index h, htag],
        Or.inr ⟨⟨index, h⟩, hidx, rfl, htag, ?_⟩⟩
      intro j hj
      exact hbefore j hj
    · obtain ⟨r, hr, hspec⟩ := ih (index + 1) (by omega) (by
        intro j hj
        by_cases hji : j.val = index
        · have : j = ⟨index, h⟩ := Fin.ext hji
          rw [this]; exact htag
        · exact hbefore j (by omega))
      exact ⟨r, by simp [FindTextureSlot_loop, hidx, textureAt_lt s index h, htag, hr], hspec⟩

theorem IsFirstSlot_unique (s : SceneState) (tag : String) (r r1 : ℤ)
    (h : IsFirstSlot s tag r) (h1 : IsFirstSlot s tag r1) : r = r1 := by
  rcases h with ⟨hr, hnone⟩ | ⟨i, hi, hr, htag, hmin⟩
  · rcases h1 with ⟨hr1, _⟩ | ⟨i1, hi1, _, htag1, _⟩
    · rw [hr, hr1]
    · exact absurd htag1 (hnone i1 hi1)
  · rcases h1 with ⟨_, hnone1⟩ | ⟨i1, hi1, hr1, htag1, hmin1⟩
    · exact absurd htag (hnone1 i hi)
    · have hii : i = i1 := by
        rcases lt_trichotomy i i1 with hlt | heq | hgt
        · exact absurd htag (hmin1 i hlt)
        · exact heq
        · exact absurd htag1 (hmin i1 hgt)
      rw [hr, hr1, hii]

theorem FindTextureSlot_spec (s : SceneState) (tag : String)
    (h16 : s.m_loadedTextures ≤ 16) :
    ∃ r, FindTextureSlot s tag = some r ∧ IsFirstSlot s tag r :=
  FindTextureSlot_loop_spec s tag h16 s.m_loadedTextures 0 (by omega)
    (fun j hj => absurd hj (by omega))

/-- C15: on a registry with at most 16 registered textures, `FindTextureSlot` returns
-1 when none of the first `m_loadedTextures` entries has the tag and otherwise the
smallest index whose tag equals it, so it returns -1 exactly when no registered entry
has the tag; on a freshly constructed `SceneManager` it returns -1 for every tag, the
placeholder `"/0"` included. -/
theorem FindTextureSlot_first_match (s : SceneState) (tag tag0 : String)
    (h16 : s.m_loadedTextures ≤ 16) :
    (∃ r, FindTextureSlot s tag = some r ∧
      ((r = -1 ∧ ∀ i : Fin 16, i.val < s.m_loadedTextures → (s.m_textureIDs i).tag ≠ tag) ∨
       (∃ i : Fin 16, i.val < s.m_loadedTextures ∧ r = (i.val : ℤ) ∧
          (s.m_textureIDs i).tag = tag ∧ ∀ j : Fin 16, j < i → (s.m_textureIDs j).tag ≠ tag)) ∧
      (r = -1 ↔ ∀ i : Fin 16, i.val < s.m_loadedTextures → (s.m_textureIDs i).tag ≠ tag)) ∧
    FindTextureSlot SceneManager tag0 = some (-1) ∧
    FindTextureSlot SceneManager "/0" = some (-1) := by
  refine ⟨?_, rfl, rfl⟩
  obtain ⟨r, hr, hspec⟩ := FindTextureSlot_spec s tag h16
  refine ⟨r, hr, hspec, ?_⟩
  rcases hspec with ⟨hr1, hnone⟩ | ⟨i, hi, hri, htag, _⟩
  · exact ⟨fun _ => hnone, fun _ => hr1⟩
  · constructor
    · intro hneg
      have : (0 : ℤ) ≤ (i.val : ℤ) := Int.natCast_nonneg _
      omega
    · intro hnone
      exact absurd htag (hnone i hi)

/-- Witness of C15: the sample registry (two textures) and the tag `"drywall"`. -/
theorem FindTextureSlot_first_match_witness :
    sampleScene.m_loadedTextures ≤ 16 ∧
    ∃ r, FindTextureSlot sampleScene "drywall" = some r ∧
      ((r = -1 ∧ ∀ i : Fin 16, i.val < sampleScene.m_loadedTextures →
          (sampleScene.m_textureIDs i).tag ≠ "drywall") ∨
       (∃ i : Fin 16, i.val < sampleScene.m_loadedTextures ∧ r = (i.val : ℤ) ∧
          (sampleScene.m_textureIDs i).tag = "drywall" ∧
          ∀ j : Fin 16, j < i → (sampleScene.m_textureIDs j).tag ≠ "drywall")) ∧
      (r = -1 ↔ ∀ i : Fin 16, i.val < sampleScene.m_loadedTextures →
          (sampleScene.m_textureIDs i).tag ≠ "drywall") :=
  ⟨by decide, (FindTextureSlot_first_match sampleScene "drywall" "floor" (by decide)).1⟩

theorem idOfSlot_index (s : SceneState) (index : ℕ) (h : index < 16) :
    s.idOfSlot (index : ℤ) = some (GLuint_to_int (s.m_textureIDs ⟨index, h⟩).ID) := by
  have hne : ¬ ((index : ℤ) = -1) := by omega
  simp [SceneState.idOfSlot, hne, textureAt_lt s index h]

theorem FindTextureID_loop_eq (s : SceneState) (tag : String) :
    ∀ fuel index : ℕ,
      FindTextureID_loop s tag fuel index
        = (FindTextureSlot_loop s tag fuel index).bind s.idOfSlot := by
  intro fuel
  induction fuel with
  | zero =>
    intro index
    by_cases hidx : index < s.m_loadedTextures
    · simp [FindTextureID_loop, FindTextureSlot_loop, hidx]
    · simp [FindTextureID_loop, FindTextureSlot_loop, hidx, SceneState.idOfSlot]
  | succ fuel ih =>
    intro index
    by_cases hidx : index < s.m_loadedTextures
    · by_cases h : index < 16
      · by_cases htag : (s.m_textureIDs ⟨index, h⟩).tag = tag
        · simp [FindTextureID_loop, FindTextureSlot_loop, hidx, textureAt_lt s index h, htag,
            idOfSlot_index s index h]
        · simp [FindTextureID_loop, FindTextureSlot_loop, hidx, textureAt_lt s index h, htag,
            ih (index + 1)]
      · simp [FindTextureID_loop, FindTextureSlot_loop, hidx, SceneState.textureAt, h]
    · simp [FindTextureID_loop, FindTextureSlot_loop, hidx, SceneState.idOfSlot]

theorem FindTextureID_eq (s : SceneState) (tag : String) :
    FindTextureID s tag = (FindTextureSlot s tag).bind s.idOfSlot :=
  FindTextureID_loop_eq s tag s.m_loadedTextures 0

theorem GLuint_to_int_of_lt (u : ℕ) (h : u < 4294967296) :
    GLuint_to_int u = (if u < 2147483648 then (u : ℤ) else (u : ℤ) - 4294967296) := by
  simp only [GLuint_to_int, Nat.mod_eq_of_lt h]

/-- C16, as amended: on a registry with at most 16 registered textures, whose IDs are
`GLuint` values, `FindTextureSlot` returns a slot that is either -1, and then
`FindTextureID` returns -1, or an index `i` of the table, and then `FindTextureID`
returns the ID registered at index `i` converted to `int`: the ID itself when it is
below 2^31, the ID minus 2^32 otherwise. -/
theorem FindTextureID_agrees_with_slot (s : SceneState) (tag : String)
    (h16 : s.m_loadedTextures ≤ 16)
    (hid : ∀ i : Fin 16, (s.m_textureIDs i).ID < 4294967296) :
    ∃ slot, FindTextureSlot s tag = some slot ∧
      ((slot = -1 ∧ FindTextureID s tag = some (-1)) ∨
       (∃ i : Fin 16, i.val < s.m_loadedTextures ∧ slot = (i.val : ℤ) ∧
          FindTextureID s tag
            = some (if (s.m_textureIDs i).ID < 2147483648 then ((s.m_textureIDs i).ID : ℤ)
                    else ((s.m_textureIDs i).ID : ℤ) - 4294967296))) := by
  obtain ⟨r, hr, hspec⟩ := FindTextureSlot_spec s tag h16
  refine ⟨r, hr, ?_⟩
  rcases hspec with ⟨hr1, _⟩ | ⟨i, hi, hri, _, _⟩
  · left
    refine ⟨hr1, ?_⟩
    rw [FindTextureID_eq, hr, hr1]
    simp [SceneState.idOfSlot]
  · right
    refine ⟨i, hi, hri, ?_⟩
    rw [FindTextureID_eq, hr, hri, ← GLuint_to_int_of_lt _ (hid i)]
    exact idOfSlot_index s i.val i.isLt

/-- Witness of C16 as amended: the sample registry and the tag `"drywall"`, registered
at index 1 with ID 9. -/
theorem FindTextureID_agrees_with_slot_witness :
    (sampleScene.m_loadedTextures ≤ 16 ∧
      ∀ i : Fin 16, (sampleScene.m_textureIDs i).ID < 4294967296) ∧
    ∃ slot, FindTextureSlot sampleScene "drywall" = some slot ∧
      ((slot = -1 ∧ FindTextureID sampleScene "drywall" = some (-1)) ∨
       (∃ i : Fin 16, i.val < sampleScene.m_loadedTextures ∧ slot = (i.val : ℤ) ∧
          FindTextureID sampleScene "drywall"
            = some (if (sampleScene.m_textureIDs i).ID < 2147483648
                    then ((sampleScene.m_textureIDs i).ID : ℤ)
                    else ((sampleScene.m_textureIDs i).ID : ℤ) - 4294967296))) :=
  ⟨⟨by decide, by decide⟩,
   FindTextureID_agrees_with_slot sampleScene "drywall" (by decide) (by decide)⟩

/-- Counterexample to C16 as stated: a texture registered with the ID 4294967295 on a
fresh `SceneManager` is found by `FindTextureSlot` at index 0, the ID registered there
is 4294967295, and `FindTextureID` returns -1, the value it also returns for a tag that
is not registered. -/
theorem FindTextureID_large_ID :
    ∃ s1, CreateGLTexture SceneManager (some 3) 4294967295 "tex" = some (s1, true) ∧
      FindTextureSlot s1 "tex" = some 0 ∧
      (s1.textureAt 0).map (fun e => e.ID) = some 4294967295 ∧
      FindTextureID s1 "tex" = some (-1) ∧
      FindTextureID s1 "absent" = some (-1) := by
  refine ⟨_, rfl, ?_, ?_, ?_, ?_⟩ <;> decide

theorem FindTextureSlot_loop_extend (s s1 : SceneState) (tag : String)
    (hn : s.m_loadedTextures < 16)
    (hcount : s1.m_loadedTextures = s.m_loadedTextures + 1)
    (hsame : ∀ i : Fin 16, i.val < s.m_loadedTextures → s1.m_textureIDs i = s.m_textureIDs i) :
    ∀ fuel index : ℕ, fuel + index = s.m_loadedTextures →
      FindTextureSlot_loop s1 tag (fuel + 1) index
        = (if FindTextureSlot_loop s tag fuel index = some (-1) then
            (if (s1.m_textureIDs ⟨s.m_loadedTextures, hn⟩).tag = tag
              then some (s.m_loadedTextures : ℤ) else some (-1))
           else FindTextureSlot_loop s tag fuel index) := by
  intro fuel
  induction fuel with
  | zero =>
    intro index hfi
    have hidx : index = s.m_loadedTextures := by omega
    subst hidx
    have h1 : ¬ (s.m_loadedTextures + 1 < s1.m_loadedTextures) := by omega
    have h2 : s.m_loadedTextures < s1.m_loadedTextures := by omega
    simp [FindTextureSlot_loop, h1, h2, textureAt_lt s1 _ hn]
  | succ fuel ih =>
    intro index hfi
    have hidx : index < s.m_loadedTextures := by omega
    have hidx1 : index < s1.m_loadedTextures := by omega
    have h : index < 16 := by omega
    have he : s1.m_textureIDs ⟨index, h⟩ = s.m_textureIDs ⟨index, h⟩ := hsame ⟨index, h⟩ hidx
    have hne : ¬ ((index : ℤ) = -1) := by omega
    rw [FindTextureSlot_loop]
    by_cases htag : (s.m_textureIDs ⟨index, h⟩).tag = tag
    · simp [FindTextureSlot_loop, hidx, hidx1, textureAt_lt s1 index h, textureAt_lt s index h,
        he, htag, hne]
    · rw [if_pos hidx1, textureAt_lt s1 index h]
      simp only [he, htag, if_false]
      rw [ih (index + 1) (by omega)]
      simp [FindTextureSlot_loop, hidx, textureAt_lt s index h, htag]

theorem FindTextureSlot_extend (s s1 : SceneState) (tag : String)
    (hn : s.m_loadedTextures < 16)
    (hcount : s1.m_loadedTextures = s.m_loadedTextures + 1)
    (hsame : ∀ i : Fin 16, i.val < s.m_loadedTextures → s1.m_textureIDs i = s.m_textureIDs i) :
    FindTextureSlot s1 tag
      = (if FindTextureSlot s tag = some (-1) then
          (if (s1.m_textureIDs ⟨s.m_loadedTextures, hn⟩).tag = tag
            then some (s.m_loadedTextures : ℤ) else some (-1))
         else FindTextureSlot s tag) := by
  unfold FindTextureSlot
  rw [hcount]
  exact FindTextureSlot_loop_extend s s1 tag hn hcount hsame s.m_loadedTextures 0 (by omega)

/-- C18, as amended: when `CreateGLTexture` succeeds (the image loads with 3 or 4 colour
channels) on a registry holding `n < 16` textures, it registers the new ID (a `GLuint`)
and tag at index `n`, makes the count `n + 1` and returns true; if the tag was not
registered before, `FindTextureSlot(tag)` then returns `n` and `FindTextureID(tag)` the
new ID converted to `int` (the ID itself when it is below 2^31, the ID minus 2^32
otherwise), and the lookups of every tag registered before are as they were. -/
theorem CreateGLTexture_registers (s : SceneState) (colorChannels : ℕ) (textureID : ℕ)
    (tag : String) (hch : colorChannels = 3 ∨ colorChannels = 4)
    (hn : s.m_loadedTextures < 16) (hid : textureID < 4294967296) :
    ∃ s1, CreateGLTexture s (some colorChannels) textureID tag = some (s1, true) ∧
      s1.m_loadedTextures = s.m_loadedTextures + 1 ∧
      s1.textureAt s.m_loadedTextures = some ⟨tag, textureID⟩ ∧
      ((∀ i : Fin 16, i.val < s.m_loadedTextures → (s.m_textureIDs i).tag ≠ tag) →
        FindTextureSlot s1 tag = some (s.m_loadedTextures : ℤ) ∧
        FindTextureID s1 tag
          = some (if textureID < 2147483648 then (textureID : ℤ)
                  else (textureID : ℤ) - 4294967296)) ∧
      (∀ tag1 : String,
        (∃ i : Fin 16, i.val < s.m_loadedTextures ∧ (s.m_textureIDs i).tag = tag1) →
        FindTextureSlot s1 tag1 = FindTextureSlot s tag1 ∧
        FindTextureID s1 tag1 = FindTextureID s tag1) := by
  have hmod : textureID % 4294967296 = textureID := Nat.mod_eq_of_lt hid
  have hsame : ∀ i : Fin 16, i.val < s.m_loadedTextures →
      Function.update s.m_textureIDs ⟨s.m_loadedTextures, hn⟩ ⟨tag, textureID⟩ i
        = s.m_textureIDs i := by
    intro i hi
    exact Function.update_noteq (fun h => by rw [h] at hi; exact lt_irrefl _ hi) _ _
  have hnew : Function.update s.m_textureIDs ⟨s.m_loadedTextures, hn⟩ ⟨tag, textureID⟩
      ⟨s.m_loadedTextures, hn⟩ = ⟨tag, textureID⟩ := Function.update_same _ _ _
  have hext := fun tag1 => FindTextureSlot_extend s
    { s with
      m_textureIDs := Function.update s.m_textureIDs ⟨s.m_loadedTextures, hn⟩ ⟨tag, textureID⟩
      m_loadedTextures := s.m_loadedTextures + 1 } tag1 hn rfl hsame
  refine ⟨{ s with
      m_textureIDs := Function.update s.m_textureIDs ⟨s.m_loadedTextures, hn⟩ ⟨tag, textureID⟩
      m_loadedTextures := s.m_loadedTextures + 1 }, ?_, rfl, ?_, ?_, ?_⟩
  · simp [CreateGLTexture, hch, hn, hmod]
  · rw [textureAt_lt _ _ hn]
    exact congrArg some hnew
  · intro hfresh
    obtain ⟨r, hr, hspec⟩ := FindTextureSlot_spec s tag (le_of_lt hn)
    have hr1 : r = -1 := by
      rcases hspec with ⟨h1, _⟩ | ⟨i, hi, _, htag, _⟩
      · exact h1
      · exact absurd htag (hfresh i hi)
    have hslot := hext tag
    simp only [hr, hr1, hnew, if_true] at hslot
    refine ⟨hslot, ?_⟩
    rw [FindTextureID_eq, hslot, Option.some_bind, idOfSlot_index _ _ hn,
      ← GLuint_to_int_of_lt _ hid]
    exact congrArg (fun e => some (GLuint_to_int e.ID)) hnew
  · intro tag1 hreg
    obtain ⟨i0, hi0, htag0⟩ := hreg
    obtain ⟨r, hr, hspec⟩ := FindTextureSlot_spec s tag1 (le_of_lt hn)
    obtain ⟨i, hi, hri⟩ : ∃ i : Fin 16, i.val < s.m_loadedTextures ∧ r = (i.val : ℤ) := by
      rcases hspec with ⟨_, hnone⟩ | ⟨i, hi, hri, _, _⟩
      · exact absurd htag0 (hnone i0 hi0)
      · exact ⟨i, hi, hri⟩
    have hne : ¬ ((i.val : ℤ) = -1) := by omega
    have hslot := hext tag1
    rw [hr, hri, if_neg (fun h => hne (Option.some.inj h))] at hslot
    refine ⟨by rw [hslot, hr, hri], ?_⟩
    rw [FindTextureID_eq, FindTextureID_eq, hslot, hr, hri, Option.some_bind, Option.some_bind,
      idOfSlot_index _ _ i.isLt, idOfSlot_index _ _ i.isLt]
    exact congrArg (fun e => some (GLuint_to_int e.ID)) (hsame i hi)

/-- Witness of C18 as amended: the image for tag `"cylinder"` loads with 3 channels and
gets ID 11 on the sample registry, which holds two textures. -/
theorem CreateGLTexture_registers_witness :
    ((3 : ℕ) = 3 ∨ (3 : ℕ) = 4) ∧ sampleScene.m_loadedTextures < 16 ∧
    (11 : ℕ) < 4294967296 ∧
    ∃ s1, CreateGLTexture sampleScene (some 3) 11 "cylinder" = some (s1, true) ∧
      s1.m_loadedTextures = sampleScene.m_loadedTextures + 1 ∧
      s1.textureAt sampleScene.m_loadedTextures = some ⟨"cylinder", 11⟩ :=
  ⟨Or.inl rfl, by decide, by decide,
   (CreateGLTexture_registers sampleScene 3 11 "cylinder" (Or.inl rfl) (by decide)
      (by decide)).elim
    (fun s1 h => ⟨s1, h.1, h.2.1, h.2.2.1⟩)⟩

/-- Counterexample to C18 as stated. Sixteen successful `CreateGLTexture` calls on a
fresh `SceneManager` leave a registry holding 16 textures; a further successful load
then has no entry 16 of the table to register in (write outside the table). And a
texture that gets the ID 2147483648 on a fresh `SceneManager`, under a tag not
registered before, is registered with that ID, but `FindTextureID` of its tag returns
-2147483648, not the new ID. -/
theorem CreateGLTexture_full_table :
    (∃ s16, createAll SceneManager (List.replicate 16 (some 3, 5, "tex")) = some s16 ∧
      s16.m_loadedTextures = 16 ∧
      s16.textureAt s16.m_loadedTextures = none ∧
      CreateGLTexture s16 (some 3) 99 "extra" = none) ∧
    (∃ s1, CreateGLTexture SceneManager (some 4) 2147483648 "tex" = some (s1, true) ∧
      s1.textureAt 0 = some ⟨"tex", 2147483648⟩ ∧
      FindTextureID s1 "tex" = some (-2147483648)) := by
  refine ⟨⟨_, rfl, rfl, rfl, rfl⟩, ⟨_, rfl, ?_, ?_⟩⟩ <;> decide

theorem CreateGLTexture_count (s : SceneState) (call : Option ℕ × ℕ × String)
    (h : s.m_loadedTextures + (if registers call = true then 1 else 0) ≤ 16) :
    ∃ r, CreateGLTexture s call.1 call.2.1 call.2.2 = some r ∧
      r.1.m_loadedTextures = s.m_loadedTextures + (if registers call = true then 1 else 0) := by
  obtain ⟨image, textureID, tag⟩ := call
  cases image with
  | none => exact ⟨(s, false), rfl, by simp [registers]⟩
  | some ch =>
    by_cases hch : ch = 3 ∨ ch = 4
    · have hreg : registers (some ch, textureID, tag) = true := by
        simpa [registers] using hch
      rw [hreg] at h
      have hlt : s.m_loadedTextures < 16 := by
        simp only [if_true] at h
        omega
      exact ⟨({ s with
          m_textureIDs := Function.update s.m_textureIDs ⟨s.m_loadedTextures, hlt⟩
            ⟨tag, textureID % 4294967296⟩
          m_loadedTextures := s.m_loadedTextures + 1 }, true),
        by simp only [CreateGLTexture, hch, hlt, if_true, dite_true], by simp [hreg]⟩
    · have hreg : registers (some ch, textureID, tag) = false := by
        simpa [registers] using hch
      exact ⟨(s, false), by simp only [CreateGLTexture, hch, if_false], by simp [hreg]⟩

theorem createAll_count (calls : List (Option ℕ × ℕ × String)) :
    ∀ s : SceneState, s.m_loadedTextures + calls.countP registers ≤ 16 →
      ∃ s1, createAll s calls = some s1 ∧
        s1.m_loadedTextures = s.m_loadedTextures + calls.countP registers := by
  induction calls with
  | nil => intro s _; exact ⟨s, rfl, rfl⟩
  | cons call calls ih =>
    intro s hlen
    rw [List.countP_cons] at hlen ⊢
    obtain ⟨r, hr, hcount⟩ := CreateGLTexture_count s call (by omega)
    obtain ⟨s1, hs1, hcount1⟩ := ih r.1 (by omega)
    exact ⟨s1, by simp only [createAll, hr, hs1], by omega⟩

/-- C19, as amended: `CreateGLTexture` has no check against the table size. On a freshly
constructed `SceneManager`, for every sequence of calls of which at most 16 take the
registering path, after each call the count equals the number of registrations made so
far and is at most 16, each registration having gone to an index inside the 16-entry
table; in particular the eleven calls of `LoadSceneTextures` end with at most 11
registered textures, whatever the files yield. -/
theorem CreateGLTexture_within_table (calls : List (Option ℕ × ℕ × String))
    (files : String → Option ℕ × ℕ) (n : ℕ) (hlen : calls.countP registers ≤ 16) :
    (∃ s1, createAll SceneManager (calls.take n) = some s1 ∧
      s1.m_loadedTextures = (calls.take n).countP registers ∧ s1.m_loadedTextures ≤ 16) ∧
    (∃ s1, LoadSceneTextures files SceneManager = some s1 ∧ s1.m_loadedTextures ≤ 11) := by
  have h0 : SceneManager.m_loadedTextures = 0 := rfl
  constructor
  · have hl : (calls.take n).countP registers ≤ calls.countP registers :=
      (List.take_sublist n calls).countP_le registers
    obtain ⟨s1, hs1, hcount⟩ := createAll_count (calls.take n) SceneManager (by omega)
    exact ⟨s1, hs1, by omega, by omega⟩
  · have hl : (sceneTextures.map (fun ft => ((files ft.1).1, (files ft.1).2, ft.2))).countP
        registers ≤ 11 := by
      refine le_trans (List.countP_le_length registers) ?_
      simp [sceneTextures]
    obtain ⟨s1, hs1, hcount⟩ := createAll_count
      (sceneTextures.map (fun ft => ((files ft.1).1, (files ft.1).2, ft.2))) SceneManager
      (by omega)
    exact ⟨s1, hs1, by omega⟩

/-- Witness of C19 as amended: three calls, of which the second fails to load. -/
theorem CreateGLTexture_within_table_witness :
    [(some 3, (7 : ℕ), "floor"), (none, 0, "drywall"), (some 4, 9, "cylinder")].countP
        registers ≤ 16 ∧
    ∃ s1, createAll SceneManager
        ([(some 3, (7 : ℕ), "floor"), (none, 0, "drywall"), (some 4, 9, "cylinder")].take 3)
          = some s1 ∧
      s1.m_loadedTextures
        = ([(some 3, (7 : ℕ), "floor"), (none, 0, "drywall"), (some 4, 9, "cylinder")].take
            3).countP registers ∧
      s1.m_loadedTextures ≤ 16 :=
  ⟨by decide,
   (CreateGLTexture_within_table
      [(some 3, (7 : ℕ), "floor"), (none, 0, "drywall"), (some 4, 9, "cylinder")]
      (fun _ => (some 3, 1)) 3 (by decide)).1⟩

/-- Counterexample to C19 as stated: of seventeen successful `CreateGLTexture` calls on a
fresh `SceneManager` the first sixteen fill the table (count 16) and the seventeenth
attempts its registration at index 16, outside the entries 0..15. -/
theorem CreateGLTexture_seventeenth_call :
    (∃ s16, createAll SceneManager ((List.replicate 17 (some 3, 5, "tex")).take 16) = some s16 ∧
      s16.m_loadedTextures = 16 ∧ ¬ s16.m_loadedTextures < 16) ∧
    createAll SceneManager (List.replicate 17 (some 3, 5, "tex")) = none := by
  refine ⟨⟨_, rfl, rfl, by decide⟩, rfl⟩

/-! ### Material lookup -/

/-- C17 (the code departs from it): on the eight materials of `DefineObjectMaterials`,
none of which has the tag `"plastic"`, `FindMaterial("plastic", material)` returns true
and leaves the output material as it was. For comparison, the tag `"wood"` returns true
with the five values of the wood material copied, and an empty material list returns
false. -/
theorem FindMaterial_absent_tag (material : OBJECT_MATERIAL) :
    (∀ e ∈ (DefineObjectMaterials SceneManager).m_objectMaterials, e.tag ≠ "plastic") ∧
    FindMaterial (DefineObjectMaterials SceneManager) "plastic" material
      = some (true, material) ∧
    FindMaterial (DefineObjectMaterials SceneManager) "wood" material
      = some (true, { material with
          ambientColor := ⟨1/10, 1/10, 1/10⟩
          ambientStrength := 1/5
          diffuseColor := ⟨3/10, 3/10, 3/10⟩
          specularColor := ⟨1/10, 1/10, 1/10⟩
          shininess := 3/10 }) ∧
    FindMaterial SceneManager "plastic" material = some (false, material) := by
  refine ⟨?_, ?_, ?_, ?_⟩
  · simp [DefineObjectMaterials, SceneManager, mkMaterial]
  · simp [FindMaterial, FindMaterial_loop, DefineObjectMaterials, SceneManager, mkMaterial]
  · simp [FindMaterial, FindMaterial_loop, DefineObjectMaterials, SceneManager, mkMaterial]
  · simp [FindMaterial, SceneManager]

/-! ### Pointer paths -/

theorem pointerRun_cons (api : CameraApi) (s : ViewState) (p : ℚ × ℚ)
    (samples : List (ℚ × ℚ)) :
    pointerRun api s (p :: samples)
      = pointerRun api (Mouse_Position_Callback api s p.1 p.2) samples := rfl

theorem pointerRun_tracking (api : CameraApi) (rest : List (ℚ × ℚ)) :
    ∀ (s : ViewState) (c : Camera) (p : ℚ × ℚ), s.gFirstMouse = false →
      s.g_pCamera = some c → s.gLastX = p.1 → s.gLastY = p.2 →
      (pointerRun api s rest).g_pCamera
        = some (applyOffsets api c (pointerOffsets (p :: rest))) := by
  induction rest with
  | nil =>
    intro s c p _ hc _ _
    simpa [pointerRun, applyOffsets, pointerOffsets] using hc
  | cons q rest ih =>
    intro s c p hf hc hx hy
    rw [pointerRun_cons]
    have hstep := ih (Mouse_Position_Callback api s q.1 q.2)
      (api.ProcessMouseMovement c (q.1 - p.1) (p.2 - q.2)) q
      (by simp [Mouse_Position_Callback, hf, hc])
      (by simp [Mouse_Position_Callback, hf, hc, hx, hy])
      (by simp [Mouse_Position_Callback, hf, hc])
      (by simp [Mouse_Position_Callback, hf, hc])
    rw [hstep]
    simp [applyOffsets, pointerOffsets]

theorem pointerOffsets_sum (rest : List (ℚ × ℚ)) :
    ∀ p : ℚ × ℚ,
      ((pointerOffsets (p :: rest)).map Prod.fst).sum = (rest.getLastD p).1 - p.1 ∧
      ((pointerOffsets (p :: rest)).map Prod.snd).sum = p.2 - (rest.getLastD p).2 := by
  induction rest with
  | nil => intro p; simp [pointerOffsets]
  | cons q rest ih =>
    intro p
    obtain ⟨hx, hy⟩ := ih q
    simp only [pointerOffsets, List.map_cons, List.sum_cons, List.getLastD_cons, hx, hy]
    constructor <;> ring

/-- C21: for pointer samples `(x0, y0), (x1, y1), ..., (xn, yn)` delivered while the
first-sample flag is set at the start and a camera is present, the camera ends as the
one obtained by calling `ProcessMouseMovement` with the offsets
`(x1 - x0, y0 - y1), ..., (xn - x(n-1), y(n-1) - yn)` in order, whatever the camera does
with them; their x components sum to `xn - x0` and their y components to `y0 - yn`. -/
theorem pointerRun_offsets_telescope (api : CameraApi) (s : ViewState)
    (c : Camera) (p0 : ℚ × ℚ) (rest : List (ℚ × ℚ))
    (hf : s.gFirstMouse = true) (hc : s.g_pCamera = some c) :
    (pointerRun api s (p0 :: rest)).g_pCamera
        = some (applyOffsets api c (pointerOffsets (p0 :: rest))) ∧
      ((pointerOffsets (p0 :: rest)).map Prod.fst).sum = (rest.getLastD p0).1 - p0.1 ∧
      ((pointerOffsets (p0 :: rest)).map Prod.snd).sum = p0.2 - (rest.getLastD p0).2 := by
  refine ⟨?_, pointerOffsets_sum rest p0⟩
  rw [pointerRun_cons]
  exact pointerRun_tracking api rest (Mouse_Position_Callback api s p0.1 p0.2) c p0
    (by simp [Mouse_Position_Callback, hf])
    (by simp [Mouse_Position_Callback, hf, hc])
    (by simp [Mouse_Position_Callback, hf])
    (by simp [Mouse_Position_Callback, hf])

/-- Witness of C21: after window creation the samples (500, 400), (510, 390), (505, 420)
and (530, 410); the offsets (10, 10), (-5, -30), (25, 10) sum to (30, -10). -/
theorem pointerRun_offsets_telescope_witness :
    sampleState.gFirstMouse = true ∧
      pointerOffsets [(500, 400), (510, 390), (505, 420), (530, 410)]
        = [(10, 10), (-5, -30), (25, 10)] ∧
      ((pointerOffsets [(500, 400), (510, 390), (505, 420), (530, 410)]).map Prod.fst).sum
        = 530 - 500 ∧
      ((pointerOffsets [(500, 400), (510, 390), (505, 420), (530, 410)]).map Prod.snd).sum
        = 400 - 410 :=
  ⟨rfl, by norm_num [pointerOffsets],
   (pointerRun_offsets_telescope sampleApi sampleState
      { sampleCamera with Position := ⟨1/2, 11/2, 10⟩, Front := ⟨0, -1/2, -2⟩,
                          Up := ⟨0, 1, 0⟩, Zoom := 80 }
      (500, 400) [(510, 390), (505, 420), (530, 410)] rfl rfl).2⟩

end CS330
